import Mathlib

/-!
Verification of the ControlledEntity core of the LA_avdecc controller library
(src/controller/avdeccControlledEntityImpl.hpp and
src/controller/avdeccControlledEntityJsonSerializer.hpp) against its
natural-language specification.

The C++ data model and operations are shallowly embedded: machine integers
become Nat with an explicit modulus where overflow matters, maps become
association lists, unordered sets become Finset, fallible accessors return
Except, and stateful methods become explicit state-passing functions.
Method bodies present in the header are translated directly from the source;
methods whose bodies live in the (absent) .cpp files are modelled from the
specification and carry a doc comment starting with `Modelled from the spec`.
-/

namespace Avdecc

/-! ## SharedLock: ControlledEntityImpl::LockInformation

Translated from the source (avdeccControlledEntityImpl.hpp, lines 54-112).
The underlying std::recursive_mutex is not modelled (the embedding is
single-threaded); only the explicit bookkeeping the source performs is:
the uint32 counter `_lockedCount` and the owner `_lockingThreadID`.
A thread id is a Nat; the default-constructed std::thread::id (which never
compares equal to the id of a running thread) is `none`.
-/

/-- State of ControlledEntityImpl::LockInformation: the uint32 lock counter
and the recorded locking thread id (none when default-constructed). -/
structure LockInformation where
  lockedCount : Nat
  lockingThreadID : Option Nat
deriving DecidableEq, Repr

/-- Modulus of the uint32 counter `_lockedCount`. -/
def u32Mod : Nat := 2 ^ 32

/-- Source isSelfLocked: true iff `_lockingThreadID` equals the calling
thread's id. -/
def LockInformation.isSelfLocked (li : LockInformation) (tid : Nat) : Bool :=
  li.lockingThreadID = some tid

/-- Source lock(): on a 0 count record the calling thread as owner, then
increment the uint32 counter. -/
def LockInformation.lock (li : LockInformation) (tid : Nat) : LockInformation :=
  let li' := if li.lockedCount = 0 then { li with lockingThreadID := some tid } else li
  { li' with lockedCount := (li'.lockedCount + 1) % u32Mod }

/-- Source unlock(): decrement the uint32 counter; on reaching 0 clear the
owner. The AVDECC_ASSERT precondition is non-fatal in release builds and is
not modelled. -/
def LockInformation.unlock (li : LockInformation) : LockInformation :=
  let c := (li.lockedCount + (u32Mod - 1)) % u32Mod
  if c = 0 then { lockedCount := c, lockingThreadID := none }
  else { li with lockedCount := c }

/-- Source lockAll(lockedCount): call lock() `lockedCount` times. -/
def LockInformation.lockAll (li : LockInformation) (tid : Nat) : Nat → LockInformation
  | 0 => li
  | n + 1 => (li.lock tid).lockAll tid n

/-- Fuel-indexed unfolding of the unlockAll() loop `while (isSelfLocked())
unlock(); ++result;`. The loop terminates on every reachable state; the fuel
only makes the recursion structural. -/
def unlockAllLoop (tid : Nat) : Nat → LockInformation → Nat × LockInformation
  | 0, li => (0, li)
  | fuel + 1, li =>
    if li.isSelfLocked tid then
      let r := unlockAllLoop tid fuel li.unlock
      (r.1 + 1, r.2)
    else
      (0, li)

/-- Source unlockAll(): release as many times as the calling thread holds the
lock and return that count. A fuel of one full uint32 wrap bounds the loop
from any state. -/
def LockInformation.unlockAll (li : LockInformation) (tid : Nat) : Nat × LockInformation :=
  unlockAllLoop tid u32Mod li

/-! ## Entity model data types

The ConfigurationTree in entityModelTree.hpp holds one map per descriptor
kind, keyed by a uint16 descriptor index, each entry pairing a static and a
dynamic model. The C++ member pointer `FieldPointer ConfigurationTree::*`
used by the templated accessors to select one of those maps is embedded as a
DescriptorKind selector, which the spec's design notes call an equivalent
representation. Model payloads that no claim inspects are collapsed to a
single Nat field; the stream-port dynamic model additionally carries its
audio mappings, which claims do inspect. -/

/-- Selector for the per-descriptor-kind maps of a ConfigurationTree. -/
inductive DescriptorKind where
  | audioUnits
  | streamInputs
  | streamOutputs
  | avbInterfaces
  | clockSources
  | memoryObjects
  | locales
  | strings
  | streamPortInputs
  | streamPortOutputs
  | audioClusters
  | audioMaps
  | controls
  | clockDomains
deriving DecidableEq, Repr

/-- Every descriptor kind, in the declaration order of the source struct. -/
def DescriptorKind.allKinds : List DescriptorKind :=
  [.audioUnits, .streamInputs, .streamOutputs, .avbInterfaces, .clockSources,
   .memoryObjects, .locales, .strings, .streamPortInputs, .streamPortOutputs,
   .audioClusters, .audioMaps, .controls, .clockDomains]

/-- One audio mapping tuple (stream_index, stream_channel, cluster_offset,
cluster_channel) of entity::model::AudioMapping. -/
structure AudioMapping where
  streamIndex : Nat
  streamChannel : Nat
  clusterOffset : Nat
  clusterChannel : Nat
deriving DecidableEq, Repr

/-- Dynamic model of a descriptor node: an abstract payload for the fields no
claim inspects, plus the dynamic audio mappings a stream-port node carries. -/
structure NodeDynamicModel where
  payload : Nat
  audioMappings : List AudioMapping
deriving DecidableEq, Repr

/-- Default-constructed dynamic model (value-initialized in C++). -/
instance : Inhabited NodeDynamicModel := ⟨⟨0, []⟩⟩

/-- One entry of a per-kind descriptor map: the staticModel and dynamicModel
pair each tree node stores. -/
structure NodeModels where
  staticModel : Nat
  dynamicModel : NodeDynamicModel
deriving DecidableEq, Repr

/-- Default-constructed node, as inserted by the mutable accessors. -/
instance : Inhabited NodeModels := ⟨⟨0, default⟩⟩

/-- A per-kind descriptor map (std::map keyed by descriptor index),
embedded as an association list. -/
def NodeMap : Type := List (Nat × NodeModels)

instance : Inhabited NodeMap := ⟨([] : List (Nat × NodeModels))⟩

/-- Tree of a single configuration: one descriptor map per kind, plus the
per-kind descriptor counts its static model promises. -/
structure ConfigurationTree where
  descriptorCounts : DescriptorKind → Nat
  maps : DescriptorKind → List (Nat × NodeModels)

/-- Default-constructed configuration tree: no promised counts, empty maps. -/
instance : Inhabited ConfigurationTree := ⟨⟨fun _ => 0, fun _ => []⟩⟩

/-- Entity tree: the entity's own models (collapsed to the entity model id of
its static model and the current configuration of its dynamic model) plus the
per-configuration trees keyed by configuration index. -/
structure EntityTree where
  entityModelID : Nat
  currentConfiguration : Nat
  configurationTrees : List (Nat × ConfigurationTree)

instance : Inhabited EntityTree := ⟨⟨0, 0, []⟩⟩

/-- ADP entity record held in `_entity`: the 64-bit ids, the AemSupported
capability bit the accessors test, and an abstract payload for the rest. -/
structure EntityRecord where
  entityID : Nat
  entityModelID : Nat
  aemSupported : Bool
  payload : Nat
deriving DecidableEq, Repr

/-- Live EntityDescriptor fields setCachedEntityTree consults. -/
structure EntityDescriptor where
  entityModelID : Nat
  configurationsCount : Nat
  payload : Nat
deriving DecidableEq, Repr

/-- ControlledEntity::InterfaceLinkStatus. -/
inductive InterfaceLinkStatus where
  | unknown
  | down
  | up
deriving DecidableEq, Repr

/-- Acquire state machine states of model::AcquireState. -/
inductive AcquireState where
  | undefined
  | notAcquired
  | acquireInProgress
  | acquired
  | acquiredByOther
  | releaseInProgress
deriving DecidableEq, Repr

/-- Lock state machine states of model::LockState. -/
inductive LockState where
  | undefined
  | notLocked
  | lockInProgress
  | locked
  | lockedByOther
  | unlockInProgress
deriving DecidableEq, Repr

/-- Enumeration steps (EnumerationStep bit values 1,2,4,8,16). -/
inductive EnumerationStep where
  | getMilanInfo
  | registerUnsol
  | getStaticModel
  | getDescriptorDynamicInfo
  | getDynamicInfo
deriving DecidableEq, Repr

/-- All enumeration steps, in ascending bit-value order. -/
def EnumerationStep.allSteps : List EnumerationStep :=
  [.getMilanInfo, .registerUnsol, .getStaticModel, .getDescriptorDynamicInfo, .getDynamicInfo]

/-- CompatibilityFlag::IEEE17221 bit of the compatibility flags bitset. -/
def ieee17221Flag : Nat := 1

/-- State of one ControlledEntityImpl: the private member variables of the
source class (lines 539-584). The shared lock handle, the derived
model::EntityNode graph and the steady-clock start timestamp are not
modelled; the EnumBitfield of enumeration steps is a Boolean-valued
characteristic function, and the expected-response registries are finite
sets of (configuration index, packed key) pairs. -/
structure ControlledEntityState where
  isVirtual : Bool
  ignoreCachedEntityModel : Bool
  identifyControlIndex : Option Nat
  registerUnsolRetryCount : Nat
  queryMilanInfoRetryCount : Nat
  queryDescriptorRetryCount : Nat
  queryDynamicInfoRetryCount : Nat
  queryDescriptorDynamicInfoRetryCount : Nat
  enumerationSteps : EnumerationStep → Bool
  compatibilityFlags : Nat
  gotFatalEnumerateError : Bool
  isSubscribedToUnsolicitedNotifications : Bool
  advertised : Bool
  expectedRegisterUnsol : Bool
  expectedMilanInfo : Finset Nat
  expectedDescriptors : Finset (Nat × Nat)
  expectedDynamicInfo : Finset (Nat × Nat)
  expectedDescriptorDynamicInfo : Finset (Nat × Nat)
  avbInterfaceLinkStatus : List (Nat × InterfaceLinkStatus)
  acquireState : AcquireState
  owningControllerID : Nat
  lockState : LockState
  lockingControllerID : Nat
  milanInfo : Option Nat
  entity : EntityRecord
  entityTree : EntityTree
  redundantPrimaryStreamInputs : Finset Nat
  redundantPrimaryStreamOutputs : Finset Nat
  redundantSecondaryStreamInputs : Finset Nat
  redundantSecondaryStreamOutputs : Finset Nat
  aecpRetryCounter : Nat
  aecpTimeoutCounter : Nat
  aecpUnexpectedResponseCounter : Nat
  aecpResponsesCount : Nat
  aecpResponseTimeSum : Nat
  aecpResponseAverageTime : Nat
  aemAecpUnsolicitedCounter : Nat
  enumerationTime : Nat

/-- Constructor: a freshly discovered ControlledEntityImpl, with every field
at its member initializer from the source (empty registries, IEEE1722.1
compatibility, nothing advertised, zero counters). -/
def mkControlledEntity (ent : EntityRecord) (virt : Bool) : ControlledEntityState where
  isVirtual := virt
  ignoreCachedEntityModel := false
  identifyControlIndex := none
  registerUnsolRetryCount := 0
  queryMilanInfoRetryCount := 0
  queryDescriptorRetryCount := 0
  queryDynamicInfoRetryCount := 0
  queryDescriptorDynamicInfoRetryCount := 0
  enumerationSteps := fun _ => false
  compatibilityFlags := ieee17221Flag
  gotFatalEnumerateError := false
  isSubscribedToUnsolicitedNotifications := false
  advertised := false
  expectedRegisterUnsol := false
  expectedMilanInfo := ∅
  expectedDescriptors := ∅
  expectedDynamicInfo := ∅
  expectedDescriptorDynamicInfo := ∅
  avbInterfaceLinkStatus := []
  acquireState := .undefined
  owningControllerID := 0
  lockState := .undefined
  lockingControllerID := 0
  milanInfo := none
  entity := ent
  entityTree := default
  redundantPrimaryStreamInputs := ∅
  redundantPrimaryStreamOutputs := ∅
  redundantSecondaryStreamInputs := ∅
  redundantSecondaryStreamOutputs := ∅
  aecpRetryCounter := 0
  aecpTimeoutCounter := 0
  aecpUnexpectedResponseCounter := 0
  aecpResponsesCount := 0
  aecpResponseTimeSum := 0
  aecpResponseAverageTime := 0
  aemAecpUnsolicitedCounter := 0
  enumerationTime := 0

/-! ## Tree accessors -/

/-- Error kinds of ControlledEntity::Exception thrown by the accessors. -/
inductive ModelError where
  | notSupported
  | invalidConfigurationIndex
  | invalidDescriptorIndex
deriving DecidableEq, Repr

/-- Source gotFatalEnumerationError(): reflects `_gotFatalEnumerateError`. -/
def gotFatalEnumerationError (s : ControlledEntityState) : Bool :=
  s.gotFatalEnumerateError

/-- Modelled from the spec: the const getConfigurationTree, whose body is in
the .cpp not present under src. It fails with NotSupported when the entity
does not advertise AEM support and with InvalidConfigurationIndex when the
configuration is not present, else yields the stored configuration tree. -/
def getConfigurationTree (s : ControlledEntityState) (ci : Nat) :
    Except ModelError ConfigurationTree :=
  if !s.entity.aemSupported then .error .notSupported
  else
    match List.lookup ci s.entityTree.configurationTrees with
    | some t => .ok t
    | none => .error .invalidConfigurationIndex

/-- Source const getNodeStaticModel (lines 264-274): look the index up in the
selected map of the configuration tree, throw InvalidDescriptorIndex when
absent, else return the entry's staticModel. -/
def getNodeStaticModel (s : ControlledEntityState) (ci idx : Nat)
    (field : DescriptorKind) : Except ModelError Nat :=
  match getConfigurationTree s ci with
  | .error e => .error e
  | .ok configTree =>
    match List.lookup idx (configTree.maps field) with
    | none => .error .invalidDescriptorIndex
    | some node => .ok node.staticModel

/-- Source const getNodeDynamicModel (lines 275-285): same lookup, returning
the entry's dynamicModel. -/
def getNodeDynamicModel (s : ControlledEntityState) (ci idx : Nat)
    (field : DescriptorKind) : Except ModelError NodeDynamicModel :=
  match getConfigurationTree s ci with
  | .error e => .error e
  | .ok configTree =>
    match List.lookup idx (configTree.maps field) with
    | none => .error .invalidDescriptorIndex
    | some node => .ok node.dynamicModel

/-- Source hasTreeModel (lines 290-307): false on a fatal enumeration error
or when the AemSupported capability is absent, else whether the (configuration,
index) entry exists in the selected map; a pure Bool function of the state,
matching its const noexcept signature. -/
def hasTreeModel (s : ControlledEntityState) (ci idx : Nat)
    (field : DescriptorKind) : Bool :=
  if gotFatalEnumerationError s || !s.entity.aemSupported then false
  else
    match List.lookup ci s.entityTree.configurationTrees with
    | some configTree => (List.lookup idx (configTree.maps field)).isSome
    | none => false

/-- Replace the entry of one configuration index in the tree list. -/
def updateConfigurationTrees (l : List (Nat × ConfigurationTree)) (ci : Nat)
    (t : ConfigurationTree) : List (Nat × ConfigurationTree) :=
  l.map fun p => if p.1 = ci then (ci, t) else p

/-- Write one configuration tree back into the entity state. -/
def setConfigurationTreeAt (s : ControlledEntityState) (ci : Nat)
    (t : ConfigurationTree) : ControlledEntityState :=
  { s with entityTree :=
      { s.entityTree with configurationTrees :=
          updateConfigurationTrees s.entityTree.configurationTrees ci t } }

/-- Modelled from the spec: the non-const getConfigurationTree, whose body is
in the .cpp not present under src. It is declared noexcept, so it cannot
fail; modelled as default-constructing and inserting the configuration tree
when absent, the std::map operator-bracket behaviour its callers rely on. -/
def getConfigurationTreeMut (s : ControlledEntityState) (ci : Nat) :
    ConfigurationTree × ControlledEntityState :=
  match List.lookup ci s.entityTree.configurationTrees with
  | some t => (t, s)
  | none =>
    (default,
      { s with entityTree :=
          { s.entityTree with configurationTrees :=
              s.entityTree.configurationTrees ++ [(ci, default)] } })

/-- Replace one per-kind map of a configuration tree. -/
def ConfigurationTree.setMap (t : ConfigurationTree) (field : DescriptorKind)
    (m : List (Nat × NodeModels)) : ConfigurationTree :=
  { t with maps := fun k => if k = field then m else t.maps k }

/-- Source non-const getNodeStaticModel (lines 318-325): index the selected
map with operator-bracket, which default-constructs and inserts the node when
absent, and return its staticModel; never fails. -/
def getNodeStaticModelMut (s : ControlledEntityState) (ci idx : Nat)
    (field : DescriptorKind) : Nat × ControlledEntityState :=
  let r := getConfigurationTreeMut s ci
  match List.lookup idx (r.1.maps field) with
  | some node => (node.staticModel, r.2)
  | none =>
    ((default : NodeModels).staticModel,
      setConfigurationTreeAt r.2 ci
        (r.1.setMap field (r.1.maps field ++ [(idx, default)])))

/-- Source non-const getNodeDynamicModel (lines 326-333): same
operator-bracket indexing, returning the node's dynamicModel. -/
def getNodeDynamicModelMut (s : ControlledEntityState) (ci idx : Nat)
    (field : DescriptorKind) : NodeDynamicModel × ControlledEntityState :=
  let r := getConfigurationTreeMut s ci
  match List.lookup idx (r.1.maps field) with
  | some node => (node.dynamicModel, r.2)
  | none =>
    ((default : NodeModels).dynamicModel,
      setConfigurationTreeAt r.2 ci
        (r.1.setMap field (r.1.maps field ++ [(idx, default)])))

/-! ## Retry timers -/

/-- Modelled from the spec: the shared retry policy of the five
getQuery*RetryTimer methods, whose bodies are in the .cpp not present under
src. With kMaxRetries = 2 and a 1000 ms delay, a call returns (true, 1000)
and increments the retry counter while the counter is below 2, else
(false, 0) leaving the counter untouched. -/
def queryRetryTimer (retryCount : Nat) : (Bool × Nat) × Nat :=
  if retryCount < 2 then ((true, 1000), retryCount + 1) else ((false, 0), retryCount)

/-- Modelled from the spec: getRegisterUnsolRetryTimer on
`_registerUnsolRetryCount`. -/
def getRegisterUnsolRetryTimer (s : ControlledEntityState) :
    (Bool × Nat) × ControlledEntityState :=
  let r := queryRetryTimer s.registerUnsolRetryCount
  (r.1, { s with registerUnsolRetryCount := r.2 })

/-- Modelled from the spec: getQueryMilanInfoRetryTimer on
`_queryMilanInfoRetryCount`. -/
def getQueryMilanInfoRetryTimer (s : ControlledEntityState) :
    (Bool × Nat) × ControlledEntityState :=
  let r := queryRetryTimer s.queryMilanInfoRetryCount
  (r.1, { s with queryMilanInfoRetryCount := r.2 })

/-- Modelled from the spec: getQueryDescriptorRetryTimer on
`_queryDescriptorRetryCount`. -/
def getQueryDescriptorRetryTimer (s : ControlledEntityState) :
    (Bool × Nat) × ControlledEntityState :=
  let r := queryRetryTimer s.queryDescriptorRetryCount
  (r.1, { s with queryDescriptorRetryCount := r.2 })

/-- Modelled from the spec: getQueryDynamicInfoRetryTimer on
`_queryDynamicInfoRetryCount`. -/
def getQueryDynamicInfoRetryTimer (s : ControlledEntityState) :
    (Bool × Nat) × ControlledEntityState :=
  let r := queryRetryTimer s.queryDynamicInfoRetryCount
  (r.1, { s with queryDynamicInfoRetryCount := r.2 })

/-- Modelled from the spec: getQueryDescriptorDynamicInfoRetryTimer on
`_queryDescriptorDynamicInfoRetryCount`. -/
def getQueryDescriptorDynamicInfoRetryTimer (s : ControlledEntityState) :
    (Bool × Nat) × ControlledEntityState :=
  let r := queryRetryTimer s.queryDescriptorDynamicInfoRetryCount
  (r.1, { s with queryDescriptorDynamicInfoRetryCount := r.2 })

/-- Result of the (n+1)-th consecutive call of a retry-timer method. -/
def iterateCalls (f : ControlledEntityState → (Bool × Nat) × ControlledEntityState) :
    Nat → ControlledEntityState → (Bool × Nat) × ControlledEntityState
  | 0, s => f s
  | n + 1, s => iterateCalls f n (f s).2

/-- A retry-timer method together with the lens onto the counter field it
reads and writes; the five methods differ only in that field. -/
structure RetryCounterLens where
  get : ControlledEntityState → Nat
  set : ControlledEntityState → Nat → ControlledEntityState
  timer : ControlledEntityState → (Bool × Nat) × ControlledEntityState
  timer_eq : ∀ s, timer s = ((queryRetryTimer (get s)).1, set s (queryRetryTimer (get s)).2)
  get_set : ∀ s c, get (set s c) = c
  set_get : ∀ s, set s (get s) = s
  set_set : ∀ s c c2, set (set s c) c2 = set s c2

/-- Lens of getRegisterUnsolRetryTimer. -/
def registerUnsolLens : RetryCounterLens where
  get s := s.registerUnsolRetryCount
  set s c := { s with registerUnsolRetryCount := c }
  timer := getRegisterUnsolRetryTimer
  timer_eq _ := rfl
  get_set _ _ := rfl
  set_get _ := rfl
  set_set _ _ _ := rfl

/-- Lens of getQueryMilanInfoRetryTimer. -/
def milanInfoLens : RetryCounterLens where
  get s := s.queryMilanInfoRetryCount
  set s c := { s with queryMilanInfoRetryCount := c }
  timer := getQueryMilanInfoRetryTimer
  timer_eq _ := rfl
  get_set _ _ := rfl
  set_get _ := rfl
  set_set _ _ _ := rfl

/-- Lens of getQueryDescriptorRetryTimer. -/
def descriptorLens : RetryCounterLens where
  get s := s.queryDescriptorRetryCount
  set s c := { s with queryDescriptorRetryCount := c }
  timer := getQueryDescriptorRetryTimer
  timer_eq _ := rfl
  get_set _ _ := rfl
  set_get _ := rfl
  set_set _ _ _ := rfl

/-- Lens of getQueryDynamicInfoRetryTimer. -/
def dynamicInfoLens : RetryCounterLens where
  get s := s.queryDynamicInfoRetryCount
  set s c := { s with queryDynamicInfoRetryCount := c }
  timer := getQueryDynamicInfoRetryTimer
  timer_eq _ := rfl
  get_set _ _ := rfl
  set_get _ := rfl
  set_set _ _ _ := rfl

/-- Lens of getQueryDescriptorDynamicInfoRetryTimer. -/
def descriptorDynamicInfoLens : RetryCounterLens where
  get s := s.queryDescriptorDynamicInfoRetryCount
  set s c := { s with queryDescriptorDynamicInfoRetryCount := c }
  timer := getQueryDescriptorDynamicInfoRetryTimer
  timer_eq _ := rfl
  get_set _ _ := rfl
  set_get _ := rfl
  set_set _ _ _ := rfl

/-! ## Expected-response registries

The bodies of the set/checkAndClear/gotAll methods are in the .cpp not
present under src; they are modelled from the spec's contract for each kind
K: setKExpected inserts into the expected set, checkAndClearKExpected
removes and returns true when present else returns false, gotAllExpectedK
is true iff the set is empty. The per-configuration-index registries of
packed keys are flattened to sets of (configuration index, packed key)
pairs. -/

/-- Spec key packing: DescriptorKey = (descriptorType << 16) |
descriptorIndex, both uint16. -/
def descriptorKey (descriptorType descriptorIndex : Nat) : Nat :=
  descriptorType % 2 ^ 16 * 2 ^ 16 + descriptorIndex % 2 ^ 16

/-- Spec key packing: DynamicInfoKey = (dynamicInfoType << 32) |
(descriptorIndex << 16) | subIndex. -/
def dynamicInfoKey (dynamicInfoType descriptorIndex subIndex : Nat) : Nat :=
  dynamicInfoType % 2 ^ 16 * 2 ^ 32 + descriptorIndex % 2 ^ 16 * 2 ^ 16 + subIndex % 2 ^ 16

/-- Spec key packing: DescriptorDynamicInfoKey =
(descriptorDynamicInfoType << 16) | descriptorIndex. -/
def descriptorDynamicInfoKey (descriptorDynamicInfoType descriptorIndex : Nat) : Nat :=
  descriptorDynamicInfoType % 2 ^ 16 * 2 ^ 16 + descriptorIndex % 2 ^ 16

/-- Modelled from the spec: setRegisterUnsolExpected on the Boolean
`_expectedRegisterUnsol`. -/
def setRegisterUnsolExpected (s : ControlledEntityState) : ControlledEntityState :=
  { s with expectedRegisterUnsol := true }

/-- Modelled from the spec: checkAndClearExpectedRegisterUnsol. -/
def checkAndClearExpectedRegisterUnsol (s : ControlledEntityState) :
    Bool × ControlledEntityState :=
  if s.expectedRegisterUnsol then (true, { s with expectedRegisterUnsol := false })
  else (false, s)

/-- Modelled from the spec: gotExpectedRegisterUnsol, true iff the expected
registration is no longer outstanding. -/
def gotExpectedRegisterUnsol (s : ControlledEntityState) : Bool :=
  !s.expectedRegisterUnsol

/-- Modelled from the spec: setMilanInfoExpected inserts the MilanInfoKey. -/
def setMilanInfoExpected (s : ControlledEntityState) (milanInfoType : Nat) :
    ControlledEntityState :=
  { s with expectedMilanInfo := insert milanInfoType s.expectedMilanInfo }

/-- Modelled from the spec: checkAndClearExpectedMilanInfo. -/
def checkAndClearExpectedMilanInfo (s : ControlledEntityState) (milanInfoType : Nat) :
    Bool × ControlledEntityState :=
  if milanInfoType ∈ s.expectedMilanInfo then
    (true, { s with expectedMilanInfo := s.expectedMilanInfo.erase milanInfoType })
  else (false, s)

/-- Modelled from the spec: gotAllExpectedMilanInfo. -/
def gotAllExpectedMilanInfo (s : ControlledEntityState) : Bool :=
  s.expectedMilanInfo = ∅

/-- Modelled from the spec: setDescriptorExpected inserts the packed
DescriptorKey under its configuration index. -/
def setDescriptorExpected (s : ControlledEntityState)
    (configurationIndex descriptorType descriptorIndex : Nat) : ControlledEntityState :=
  let key := (configurationIndex, descriptorKey descriptorType descriptorIndex)
  { s with expectedDescriptors := insert key s.expectedDescriptors }

/-- Modelled from the spec: checkAndClearExpectedDescriptor. -/
def checkAndClearExpectedDescriptor (s : ControlledEntityState)
    (configurationIndex descriptorType descriptorIndex : Nat) :
    Bool × ControlledEntityState :=
  let key := (configurationIndex, descriptorKey descriptorType descriptorIndex)
  if key ∈ s.expectedDescriptors then
    (true, { s with expectedDescriptors := s.expectedDescriptors.erase key })
  else (false, s)

/-- Modelled from the spec: gotAllExpectedDescriptors. -/
def gotAllExpectedDescriptors (s : ControlledEntityState) : Bool :=
  s.expectedDescriptors = ∅

/-- Modelled from the spec: setDynamicInfoExpected inserts the packed
DynamicInfoKey under its configuration index. -/
def setDynamicInfoExpected (s : ControlledEntityState)
    (configurationIndex dynamicInfoType descriptorIndex subIndex : Nat) :
    ControlledEntityState :=
  let key := (configurationIndex, dynamicInfoKey dynamicInfoType descriptorIndex subIndex)
  { s with expectedDynamicInfo := insert key s.expectedDynamicInfo }

/-- Modelled from the spec: checkAndClearExpectedDynamicInfo. -/
def checkAndClearExpectedDynamicInfo (s : ControlledEntityState)
    (configurationIndex dynamicInfoType descriptorIndex subIndex : Nat) :
    Bool × ControlledEntityState :=
  let key := (configurationIndex, dynamicInfoKey dynamicInfoType descriptorIndex subIndex)
  if key ∈ s.expectedDynamicInfo then
    (true, { s with expectedDynamicInfo := s.expectedDynamicInfo.erase key })
  else (false, s)

/-- Modelled from the spec: gotAllExpectedDynamicInfo. -/
def gotAllExpectedDynamicInfo (s : ControlledEntityState) : Bool :=
  s.expectedDynamicInfo = ∅

/-- Modelled from the spec: setDescriptorDynamicInfoExpected inserts the
packed DescriptorDynamicInfoKey under its configuration index. -/
def setDescriptorDynamicInfoExpected (s : ControlledEntityState)
    (configurationIndex descriptorDynamicInfoType descriptorIndex : Nat) :
    ControlledEntityState :=
  let key := (configurationIndex,
    descriptorDynamicInfoKey descriptorDynamicInfoType descriptorIndex)
  { s with expectedDescriptorDynamicInfo := insert key s.expectedDescriptorDynamicInfo }

/-- Modelled from the spec: checkAndClearExpectedDescriptorDynamicInfo. -/
def checkAndClearExpectedDescriptorDynamicInfo (s : ControlledEntityState)
    (configurationIndex descriptorDynamicInfoType descriptorIndex : Nat) :
    Bool × ControlledEntityState :=
  let key := (configurationIndex,
    descriptorDynamicInfoKey descriptorDynamicInfoType descriptorIndex)
  if key ∈ s.expectedDescriptorDynamicInfo then
    (true, { s with expectedDescriptorDynamicInfo :=
        s.expectedDescriptorDynamicInfo.erase key })
  else (false, s)

/-- Modelled from the spec: gotAllExpectedDescriptorDynamicInfo. -/
def gotAllExpectedDescriptorDynamicInfo (s : ControlledEntityState) : Bool :=
  s.expectedDescriptorDynamicInfo = ∅

/-! ## Cached entity tree acceptance -/

/-- Modelled from the spec: a configuration is complete when it has all
descriptors its descriptor counts promise, i.e. the number of entries of
each kind equals the promised count. -/
def isConfigurationComplete (t : ConfigurationTree) : Bool :=
  DescriptorKind.allKinds.all fun k => (t.maps k).length == t.descriptorCounts k

/-- Modelled from the spec: isEntityModelComplete, whose body is in the .cpp
not present under src. The tree is complete when it has the promised number
of configurations and every configuration is complete. -/
def isEntityModelComplete (tree : EntityTree) (configurationsCount : Nat) : Bool :=
  tree.configurationTrees.length == configurationsCount &&
    tree.configurationTrees.all fun p => isConfigurationComplete p.2

/-- Modelled from the spec: setCachedEntityTree, whose body is in the .cpp
not present under src. The cached tree is accepted, and installed, iff the
live EntityDescriptor carries the same entity model id as the cached tree
and the cached tree is complete; the spec's contract does not condition
acceptance on the forAllConfiguration flag. -/
def setCachedEntityTree (s : ControlledEntityState) (cachedTree : EntityTree)
    (descriptor : EntityDescriptor) (_forAllConfiguration : Bool) :
    Bool × ControlledEntityState :=
  if descriptor.entityModelID == cachedTree.entityModelID
      && isEntityModelComplete cachedTree descriptor.configurationsCount then
    (true, { s with entityTree := cachedTree })
  else
    (false, s)

/-! ## Enumeration step bookkeeping and the step-advancement machine

The steps bitset manipulators are declared in the header; their trivial
bodies are in the .cpp. The step-advancement protocol itself (who calls
setKExpected and when a step is cleared) lives in the orchestrator and is
modelled from the spec: queries, and hence setKExpected registrations, are
driven by the pending step of their kind; when gotAllExpectedK holds for a
pending step the step is cleared from the bitset; and when the bitset
becomes empty onEntityFullyLoaded is invoked. -/

/-- Source setEnumerationSteps: replace the steps bitset. -/
def setEnumerationSteps (s : ControlledEntityState)
    (steps : EnumerationStep → Bool) : ControlledEntityState :=
  { s with enumerationSteps := steps }

/-- Source getEnumerationSteps: read the steps bitset. -/
def getEnumerationSteps (s : ControlledEntityState) : EnumerationStep → Bool :=
  s.enumerationSteps

/-- Source clearEnumerationStep: clear one step from the bitset. -/
def clearEnumerationStep (s : ControlledEntityState) (step : EnumerationStep) :
    ControlledEntityState :=
  { s with enumerationSteps := fun e => if e = step then false else s.enumerationSteps e }

/-- Emptiness of the steps bitset. -/
def enumerationStepsEmpty (s : ControlledEntityState) : Bool :=
  EnumerationStep.allSteps.all fun e => !s.enumerationSteps e

/-- Source wasAdvertised: reflects `_advertised`. -/
def wasAdvertised (s : ControlledEntityState) : Bool :=
  s.advertised

/-- Modelled from the spec: onEntityFullyLoaded, whose body is in the .cpp
not present under src. It builds the derived structures (the model graph and
the redundancy index, which no claim inspects through this transition) and
sets `_advertised` to true. -/
def onEntityFullyLoaded (s : ControlledEntityState) : ControlledEntityState :=
  { s with advertised := true }

/-- The five query kinds of the expected-response registries. -/
inductive QueryKind where
  | registerUnsol
  | milanInfo
  | descriptor
  | dynamicInfo
  | descriptorDynamicInfo
deriving DecidableEq, Repr

/-- The enumeration step each query kind serves. -/
def QueryKind.stepOf : QueryKind → EnumerationStep
  | .registerUnsol => .registerUnsol
  | .milanInfo => .getMilanInfo
  | .descriptor => .getStaticModel
  | .dynamicInfo => .getDynamicInfo
  | .descriptorDynamicInfo => .getDescriptorDynamicInfo

/-- Dispatch of the per-kind gotAllExpected accessors (gotExpected for the
Boolean RegisterUnsol registration). -/
def gotAllExpectedOf (s : ControlledEntityState) : QueryKind → Bool
  | .registerUnsol => gotExpectedRegisterUnsol s
  | .milanInfo => gotAllExpectedMilanInfo s
  | .descriptor => gotAllExpectedDescriptors s
  | .dynamicInfo => gotAllExpectedDynamicInfo s
  | .descriptorDynamicInfo => gotAllExpectedDescriptorDynamicInfo s

/-- Operations of the enumeration machine: registering an expected response
for the pending step of its kind, clearing an expected response upon a
received one, and advancing a completed step. -/
inductive EnumOp where
  | setRegisterUnsolExpectedOp
  | checkRegisterUnsolOp
  | setMilanInfoExpectedOp (milanInfoType : Nat)
  | checkMilanInfoOp (milanInfoType : Nat)
  | setDescriptorExpectedOp (ci dt di : Nat)
  | checkDescriptorOp (ci dt di : Nat)
  | setDynamicInfoExpectedOp (ci dt di sub : Nat)
  | checkDynamicInfoOp (ci dt di sub : Nat)
  | setDescriptorDynamicInfoExpectedOp (ci dt di : Nat)
  | checkDescriptorDynamicInfoOp (ci dt di : Nat)
  | completeStepOp (k : QueryKind)

/-- Modelled from the spec: one transition of the enumeration machine. Set
operations fire only while the step of their kind is pending (queries are
driven by the pending step); completeStepOp clears a pending step whose
expected responses have all arrived and invokes onEntityFullyLoaded when the
bitset thereby becomes empty. -/
def applyEnumOp (s : ControlledEntityState) : EnumOp → ControlledEntityState
  | .setRegisterUnsolExpectedOp =>
    if s.enumerationSteps QueryKind.registerUnsol.stepOf then setRegisterUnsolExpected s
    else s
  | .checkRegisterUnsolOp => (checkAndClearExpectedRegisterUnsol s).2
  | .setMilanInfoExpectedOp t =>
    if s.enumerationSteps QueryKind.milanInfo.stepOf then setMilanInfoExpected s t
    else s
  | .checkMilanInfoOp t => (checkAndClearExpectedMilanInfo s t).2
  | .setDescriptorExpectedOp ci dt di =>
    if s.enumerationSteps QueryKind.descriptor.stepOf then setDescriptorExpected s ci dt di
    else s
  | .checkDescriptorOp ci dt di => (checkAndClearExpectedDescriptor s ci dt di).2
  | .setDynamicInfoExpectedOp ci dt di sub =>
    if s.enumerationSteps QueryKind.dynamicInfo.stepOf then
      setDynamicInfoExpected s ci dt di sub
    else s
  | .checkDynamicInfoOp ci dt di sub => (checkAndClearExpectedDynamicInfo s ci dt di sub).2
  | .setDescriptorDynamicInfoExpectedOp ci dt di =>
    if s.enumerationSteps QueryKind.descriptorDynamicInfo.stepOf then
      setDescriptorDynamicInfoExpected s ci dt di
    else s
  | .checkDescriptorDynamicInfoOp ci dt di =>
    (checkAndClearExpectedDescriptorDynamicInfo s ci dt di).2
  | .completeStepOp k =>
    if s.enumerationSteps k.stepOf && gotAllExpectedOf s k then
      let s1 := clearEnumerationStep s k.stepOf
      if enumerationStepsEmpty s1 then onEntityFullyLoaded s1 else s1
    else s

/-- States of one entity reachable by the enumeration machine from its
construction (with any initial steps bitset installed by the orchestrator). -/
inductive EnumReachable : ControlledEntityState → Prop where
  | init (ent : EntityRecord) (virt : Bool) (steps0 : EnumerationStep → Bool) :
      EnumReachable (setEnumerationSteps (mkControlledEntity ent virt) steps0)
  | step (s : ControlledEntityState) (op : EnumOp) :
      EnumReachable s → EnumReachable (applyEnumOp s op)

/-- Invariant of the enumeration machine: a kind whose step is no longer
pending has no outstanding expected responses. -/
def EnumInvariant (s : ControlledEntityState) : Prop :=
  ∀ k : QueryKind, s.enumerationSteps k.stepOf = false → gotAllExpectedOf s k = true

/-! ## Redundancy view of stream-port audio mappings -/

/-- Source getCurrentConfigurationIndex reads the current configuration from
the entity dynamic model. -/
def getCurrentConfigurationIndex (s : ControlledEntityState) : Nat :=
  s.entityTree.currentConfiguration

/-- Source isRedundantSecondaryStreamInput: membership in the cached
`_redundantSecondaryStreamInputs` set. -/
def isRedundantSecondaryStreamInput (s : ControlledEntityState)
    (streamIndex : Nat) : Bool :=
  streamIndex ∈ s.redundantSecondaryStreamInputs

/-- Modelled from the spec: getStreamPortInputAudioMappings, whose body is in
the .cpp not present under src. It returns the dynamic audio mappings of the
stream-port-input node of the current configuration and throws
InvalidDescriptorIndex when the port does not exist (declaration comment,
line 238). -/
def getStreamPortInputAudioMappings (s : ControlledEntityState)
    (streamPortIndex : Nat) : Except ModelError (List AudioMapping) :=
  match getNodeDynamicModel s (getCurrentConfigurationIndex s) streamPortIndex
      .streamPortInputs with
  | .error e => .error e
  | .ok dyn => .ok dyn.audioMappings

/-- Modelled from the spec: getStreamPortInputNonRedundantAudioMappings,
whose body is in the .cpp not present under src. It returns the port's audio
mappings with every mapping whose stream_index refers to a redundant
secondary stream input removed. -/
def getStreamPortInputNonRedundantAudioMappings (s : ControlledEntityState)
    (streamPortIndex : Nat) : Except ModelError (List AudioMapping) :=
  match getStreamPortInputAudioMappings s streamPortIndex with
  | .error e => .error e
  | .ok mappings =>
    .ok (mappings.filter fun m => !isRedundantSecondaryStreamInput s m.streamIndex)

/-! ## Read accessors of the serialized fields -/

/-- Source isVirtual(): reflects `_isVirtual`. -/
def isVirtual (s : ControlledEntityState) : Bool := s.isVirtual

/-- Source getCompatibilityFlags(). -/
def getCompatibilityFlags (s : ControlledEntityState) : Nat := s.compatibilityFlags

/-- Source getMilanInfo(). -/
def getMilanInfo (s : ControlledEntityState) : Option Nat := s.milanInfo

/-- Source getAcquireState(). -/
def getAcquireState (s : ControlledEntityState) : AcquireState := s.acquireState

/-- Source getOwningControllerID(). -/
def getOwningControllerID (s : ControlledEntityState) : Nat := s.owningControllerID

/-- Source getLockState(). -/
def getLockState (s : ControlledEntityState) : LockState := s.lockState

/-- Source getLockingControllerID(). -/
def getLockingControllerID (s : ControlledEntityState) : Nat := s.lockingControllerID

/-- Source getEntity(): the ADP entity record. -/
def getEntity (s : ControlledEntityState) : EntityRecord := s.entity

/-- Modelled from the spec: getAvbInterfaceLinkStatus, a noexcept accessor of
the per-interface link status map, Unknown for an interface not present. -/
def getAvbInterfaceLinkStatus (s : ControlledEntityState)
    (avbInterfaceIndex : Nat) : InterfaceLinkStatus :=
  match List.lookup avbInterfaceIndex s.avbInterfaceLinkStatus with
  | some st => st
  | none => .unknown

/-- Source getAecpRetryCounter(). -/
def getAecpRetryCounter (s : ControlledEntityState) : Nat := s.aecpRetryCounter

/-- Source getAecpTimeoutCounter(). -/
def getAecpTimeoutCounter (s : ControlledEntityState) : Nat := s.aecpTimeoutCounter

/-- Source getAecpUnexpectedResponseCounter(). -/
def getAecpUnexpectedResponseCounter (s : ControlledEntityState) : Nat :=
  s.aecpUnexpectedResponseCounter

/-- Source getAecpResponseAverageTime(). -/
def getAecpResponseAverageTime (s : ControlledEntityState) : Nat :=
  s.aecpResponseAverageTime

/-- Source getAemAecpUnsolicitedCounter(). -/
def getAemAecpUnsolicitedCounter (s : ControlledEntityState) : Nat :=
  s.aemAecpUnsolicitedCounter

/-- Source getEnumerationTime(). -/
def getEnumerationTime (s : ControlledEntityState) : Nat := s.enumerationTime

/-! ## JSON serialization

Modelled from the spec: jsonSerializer::createJsonObject and its loader are
declared in avdeccControlledEntityJsonSerializer.hpp but implemented in a
.cpp not present under src. The JSON document is embedded as a typed record
with the top-level fields the spec lists (envelope dump version, the ADP
entity record, entity model id, compatibility flags, optional milan info,
acquire/lock state, per-interface link status, statistics, the recursive
entity tree as per-configuration arrays of per-kind node arrays, and the
virtual flag); enumerations and tree nodes are flattened to numbers, arrays
and pairs, and loading decodes them back, rejecting unknown enumeration
codes and unknown dump versions. -/

/-- Serialized form of one descriptor node entry. -/
structure SerializedNode where
  descriptorIndex : Nat
  staticModel : Nat
  dynamicPayload : Nat
  dynamicAudioMappings : List (Nat × Nat × Nat × Nat)
deriving DecidableEq, Repr

/-- Serialized form of one configuration: its index, the per-kind descriptor
counts and the per-kind node arrays, both in declaration order of the kinds. -/
structure SerializedConfiguration where
  configurationIndex : Nat
  descriptorCounts : List Nat
  descriptors : List (List SerializedNode)
deriving DecidableEq, Repr

/-- Serialized form of the entity tree. -/
structure SerializedTree where
  entityModelID : Nat
  currentConfiguration : Nat
  configurations : List SerializedConfiguration
deriving DecidableEq, Repr

/-- Serialized document of one entity. -/
structure SerializedEntity where
  dumpVersion : Nat
  entityID : Nat
  entityModelID : Nat
  aemSupported : Bool
  entityPayload : Nat
  compatibilityFlags : Nat
  milanInfo : Option Nat
  acquireState : Nat
  owningControllerID : Nat
  lockState : Nat
  lockingControllerID : Nat
  avbInterfaceLinkStatus : List (Nat × Nat)
  aecpRetryCounter : Nat
  aecpTimeoutCounter : Nat
  aecpUnexpectedResponseCounter : Nat
  aecpResponseAverageTime : Nat
  aemAecpUnsolicitedCounter : Nat
  enumerationTime : Nat
  entityTree : SerializedTree
  isVirtual : Bool
deriving DecidableEq, Repr

/-- Dump version the serializer writes and the loader accepts. -/
def currentDumpVersion : Nat := 1

/-- Numeric code of an AcquireState. -/
def AcquireState.toNat : AcquireState → Nat
  | .undefined => 0
  | .notAcquired => 1
  | .acquireInProgress => 2
  | .acquired => 3
  | .acquiredByOther => 4
  | .releaseInProgress => 5

/-- Decode an AcquireState code. -/
def acquireStateOfNat : Nat → Option AcquireState
  | 0 => some .undefined
  | 1 => some .notAcquired
  | 2 => some .acquireInProgress
  | 3 => some .acquired
  | 4 => some .acquiredByOther
  | 5 => some .releaseInProgress
  | _ => none

/-- Numeric code of a LockState. -/
def LockState.toNat : LockState → Nat
  | .undefined => 0
  | .notLocked => 1
  | .lockInProgress => 2
  | .locked => 3
  | .lockedByOther => 4
  | .unlockInProgress => 5

/-- Decode a LockState code. -/
def lockStateOfNat : Nat → Option LockState
  | 0 => some .undefined
  | 1 => some .notLocked
  | 2 => some .lockInProgress
  | 3 => some .locked
  | 4 => some .lockedByOther
  | 5 => some .unlockInProgress
  | _ => none

/-- Numeric code of an InterfaceLinkStatus. -/
def InterfaceLinkStatus.toNat : InterfaceLinkStatus → Nat
  | .unknown => 0
  | .down => 1
  | .up => 2

/-- Decode an InterfaceLinkStatus code. -/
def interfaceLinkStatusOfNat : Nat → Option InterfaceLinkStatus
  | 0 => some .unknown
  | 1 => some .down
  | 2 => some .up
  | _ => none

/-- Serialize one audio mapping tuple. -/
def encodeMapping (m : AudioMapping) : Nat × Nat × Nat × Nat :=
  (m.streamIndex, m.streamChannel, m.clusterOffset, m.clusterChannel)

/-- Decode one audio mapping tuple. -/
def decodeMapping (p : Nat × Nat × Nat × Nat) : AudioMapping :=
  ⟨p.1, p.2.1, p.2.2.1, p.2.2.2⟩

/-- Serialize one descriptor node entry. -/
def encodeNode (p : Nat × NodeModels) : SerializedNode :=
  ⟨p.1, p.2.staticModel, p.2.dynamicModel.payload,
    p.2.dynamicModel.audioMappings.map encodeMapping⟩

/-- Decode one descriptor node entry. -/
def decodeNode (n : SerializedNode) : Nat × NodeModels :=
  (n.descriptorIndex,
    ⟨n.staticModel, ⟨n.dynamicPayload, n.dynamicAudioMappings.map decodeMapping⟩⟩)

/-- Position of a descriptor kind in the serialized per-kind arrays. -/
def kindPosition : DescriptorKind → Nat
  | .audioUnits => 0
  | .streamInputs => 1
  | .streamOutputs => 2
  | .avbInterfaces => 3
  | .clockSources => 4
  | .memoryObjects => 5
  | .locales => 6
  | .strings => 7
  | .streamPortInputs => 8
  | .streamPortOutputs => 9
  | .audioClusters => 10
  | .audioMaps => 11
  | .controls => 12
  | .clockDomains => 13

/-- Serialize one configuration tree. -/
def encodeConfiguration (p : Nat × ConfigurationTree) : SerializedConfiguration :=
  ⟨p.1, DescriptorKind.allKinds.map p.2.descriptorCounts,
    DescriptorKind.allKinds.map fun k => (p.2.maps k).map encodeNode⟩

/-- Decode one configuration tree. -/
def decodeConfiguration (c : SerializedConfiguration) : Nat × ConfigurationTree :=
  (c.configurationIndex,
    { descriptorCounts := fun k => c.descriptorCounts.getD (kindPosition k) 0,
      maps := fun k => (c.descriptors.getD (kindPosition k) []).map decodeNode })

/-- Serialize the entity tree. -/
def encodeTree (t : EntityTree) : SerializedTree :=
  ⟨t.entityModelID, t.currentConfiguration,
    t.configurationTrees.map encodeConfiguration⟩

/-- Decode the entity tree. -/
def decodeTree (t : SerializedTree) : EntityTree :=
  ⟨t.entityModelID, t.currentConfiguration,
    t.configurations.map decodeConfiguration⟩

/-- Serialize the per-interface link status map. -/
def encodeLinkStatusList (l : List (Nat × InterfaceLinkStatus)) : List (Nat × Nat) :=
  l.map fun p => (p.1, p.2.toNat)

/-- Decode the per-interface link status map, rejecting unknown codes. -/
def decodeLinkStatusList : List (Nat × Nat) → Option (List (Nat × InterfaceLinkStatus))
  | [] => some []
  | (i, v) :: rest =>
    match interfaceLinkStatusOfNat v, decodeLinkStatusList rest with
    | some st, some r => some ((i, st) :: r)
    | _, _ => none

/-- Modelled from the spec: jsonSerializer::createJsonObject produces the
document with the spec's top-level fields from one entity. -/
def serializeEntity (s : ControlledEntityState) : SerializedEntity where
  dumpVersion := currentDumpVersion
  entityID := s.entity.entityID
  entityModelID := s.entity.entityModelID
  aemSupported := s.entity.aemSupported
  entityPayload := s.entity.payload
  compatibilityFlags := s.compatibilityFlags
  milanInfo := s.milanInfo
  acquireState := s.acquireState.toNat
  owningControllerID := s.owningControllerID
  lockState := s.lockState.toNat
  lockingControllerID := s.lockingControllerID
  avbInterfaceLinkStatus := encodeLinkStatusList s.avbInterfaceLinkStatus
  aecpRetryCounter := s.aecpRetryCounter
  aecpTimeoutCounter := s.aecpTimeoutCounter
  aecpUnexpectedResponseCounter := s.aecpUnexpectedResponseCounter
  aecpResponseAverageTime := s.aecpResponseAverageTime
  aemAecpUnsolicitedCounter := s.aemAecpUnsolicitedCounter
  enumerationTime := s.enumerationTime
  entityTree := encodeTree s.entityTree
  isVirtual := s.isVirtual

/-- Modelled from the spec: loading a serialized document rebuilds a virtual
entity. The loader rejects unknown dump versions and unknown enumeration
codes; the reconstructed entity carries every serialized field, isVirtual set
to true, ignoreCachedEntityModel false, and fresh live state (no enumeration
in progress, nothing advertised, empty registries). -/
def deserializeEntity (d : SerializedEntity) : Option ControlledEntityState :=
  if d.dumpVersion = currentDumpVersion then
    match acquireStateOfNat d.acquireState, lockStateOfNat d.lockState,
        decodeLinkStatusList d.avbInterfaceLinkStatus with
    | some aq, some lk, some ls =>
      some { mkControlledEntity ⟨d.entityID, d.entityModelID, d.aemSupported, d.entityPayload⟩ true with
        compatibilityFlags := d.compatibilityFlags
        milanInfo := d.milanInfo
        acquireState := aq
        owningControllerID := d.owningControllerID
        lockState := lk
        lockingControllerID := d.lockingControllerID
        avbInterfaceLinkStatus := ls
        aecpRetryCounter := d.aecpRetryCounter
        aecpTimeoutCounter := d.aecpTimeoutCounter
        aecpUnexpectedResponseCounter := d.aecpUnexpectedResponseCounter
        aecpResponseAverageTime := d.aecpResponseAverageTime
        aemAecpUnsolicitedCounter := d.aemAecpUnsolicitedCounter
        enumerationTime := d.enumerationTime
        entityTree := decodeTree d.entityTree }
    | _, _, _ => none
  else none

/-! ## Derived definitions and concrete sample states -/

/-- Existence-oriented lookup: the node stored at (configuration, index) in
the selected per-kind map, if any. -/
def nodeAt (s : ControlledEntityState) (ci idx : Nat) (field : DescriptorKind) :
    Option NodeModels :=
  match List.lookup ci s.entityTree.configurationTrees with
  | some t => List.lookup idx (t.maps field)
  | none => none

/-- Entity state the loader reconstructs from the serialized document of a
given state: every serialized field carried over, the virtual flag set, and
fresh live state everywhere else. -/
def deserializedOf (s : ControlledEntityState) : ControlledEntityState :=
  { mkControlledEntity s.entity true with
      compatibilityFlags := s.compatibilityFlags
      milanInfo := s.milanInfo
      acquireState := s.acquireState
      owningControllerID := s.owningControllerID
      lockState := s.lockState
      lockingControllerID := s.lockingControllerID
      avbInterfaceLinkStatus := s.avbInterfaceLinkStatus
      aecpRetryCounter := s.aecpRetryCounter
      aecpTimeoutCounter := s.aecpTimeoutCounter
      aecpUnexpectedResponseCounter := s.aecpUnexpectedResponseCounter
      aecpResponseAverageTime := s.aecpResponseAverageTime
      aemAecpUnsolicitedCounter := s.aemAecpUnsolicitedCounter
      enumerationTime := s.enumerationTime
      entityTree := s.entityTree }

/-- Sample descriptor node. -/
def sampleNode : NodeModels := ⟨7, ⟨3, []⟩⟩

/-- Sample audio mappings: stream indices 0, 1 and 2. -/
def sampleMappings : List AudioMapping :=
  [⟨0, 1, 2, 3⟩, ⟨1, 0, 0, 0⟩, ⟨2, 5, 6, 7⟩]

/-- Sample configuration tree: one stream input and one stream-port input
carrying the sample mappings. -/
def sampleConfig : ConfigurationTree where
  descriptorCounts k :=
    match k with
    | .streamInputs => 1
    | .streamPortInputs => 1
    | _ => 0
  maps k :=
    match k with
    | .streamInputs => [(0, sampleNode)]
    | .streamPortInputs => [(0, ⟨4, ⟨0, sampleMappings⟩⟩)]
    | _ => []

/-- Sample ADP record of an AEM-capable entity. -/
def sampleEntity : EntityRecord := ⟨1, 42, true, 0⟩

/-- Sample entity state: AEM-capable, one configuration, stream input 1
classified redundant-secondary. -/
def sampleEntityState : ControlledEntityState :=
  { mkControlledEntity sampleEntity false with
      entityTree := ⟨42, 0, [(0, sampleConfig)]⟩
      redundantSecondaryStreamInputs := {1} }

/-- Sample entity state after a fatal enumeration error. -/
def sampleFatalState : ControlledEntityState :=
  { sampleEntityState with gotFatalEnumerateError := true }

/-- Sample cached entity tree (complete, model id 42). -/
def sampleCachedTree : EntityTree := ⟨42, 0, [(0, sampleConfig)]⟩

/-- Sample live entity descriptor matching the sample cached tree. -/
def sampleDescriptor : EntityDescriptor := ⟨42, 1, 0⟩

/-- Initial steps bitset of the witness enumeration run: only GetDynamicInfo
pending. -/
def stepsOnlyDyn : EnumerationStep → Bool := fun e => e = EnumerationStep.getDynamicInfo

/-- Freshly discovered sample entity. -/
def sampleFreshState : ControlledEntityState := mkControlledEntity sampleEntity false

/-- Sample entity about to finish enumeration: only GetDynamicInfo pending,
no outstanding expected responses. -/
def sampleEnumState : ControlledEntityState :=
  setEnumerationSteps (mkControlledEntity sampleEntity false) stepsOnlyDyn

/-! ## Helper lemmas -/

theorem u32Mod_pos : 0 < u32Mod := by decide

/-- Unlocking from a positive count held by `tid` simply decrements. -/
theorem LockInformation.unlock_of_pos (li : LockInformation)
    (h1 : 0 < li.lockedCount) (h2 : li.lockedCount < u32Mod) :
    li.unlock = if li.lockedCount - 1 = 0 then
        { lockedCount := 0, lockingThreadID := none }
      else { li with lockedCount := li.lockedCount - 1 } := by
  have hc : (li.lockedCount + (u32Mod - 1)) % u32Mod = li.lockedCount - 1 := by
    have h3 : li.lockedCount + (u32Mod - 1) = (li.lockedCount - 1) + u32Mod := by
      omega
    rw [h3, Nat.add_mod_right]
    exact Nat.mod_eq_of_lt (by omega)
  rw [LockInformation.unlock]
  simp only [hc]
  split <;> simp_all

/-- The unlockAll loop, run by the owning thread with enough fuel, releases
exactly the held count and clears ownership. -/
theorem unlockAllLoop_owner (tid : Nat) :
    ∀ (c : Nat) (fuel : Nat) (li : LockInformation),
      li.lockedCount = c → li.lockingThreadID = some tid →
      0 < c → c < u32Mod → c ≤ fuel →
      unlockAllLoop tid fuel li = (c, { lockedCount := 0, lockingThreadID := none }) := by
  intro c
  induction c with
  | zero => intro fuel li _ _ h3 _ _; omega
  | succ n ih =>
    intro fuel li h1 h2 _ h4 h5
    match fuel, h5 with
    | fuel + 1, _ =>
      have hself : li.isSelfLocked tid = true := by
        simp [LockInformation.isSelfLocked, h2]
      rw [unlockAllLoop, if_pos hself]
      have hunlock := li.unlock_of_pos (by omega) (by omega)
      rcases Nat.eq_zero_or_pos n with hn | hn
      · subst hn
        have hli : li.unlock = { lockedCount := 0, lockingThreadID := none } := by
          rw [hunlock]; simp [h1]
        rw [hli]
        have : unlockAllLoop tid fuel { lockedCount := 0, lockingThreadID := none }
            = (0, { lockedCount := 0, lockingThreadID := none }) := by
          match fuel with
          | 0 => rfl
          | fuel + 1 =>
            rw [unlockAllLoop]
            simp [LockInformation.isSelfLocked]
        rw [this]
      · have hli : li.unlock = { li with lockedCount := n } := by
          rw [hunlock]; simp [h1]; omega
        rw [hli]
        have := ih fuel { li with lockedCount := n } rfl h2 hn (by omega) (by omega)
        rw [this]

/-- Locking repeatedly from an owned positive count just adds to the count. -/
theorem lockAll_owned (tid : Nat) :
    ∀ (n : Nat) (li : LockInformation),
      0 < li.lockedCount → li.lockedCount + n < u32Mod →
      li.lockingThreadID = some tid →
      li.lockAll tid n = { lockedCount := li.lockedCount + n, lockingThreadID := some tid } := by
  intro n
  induction n with
  | zero =>
    intro li h1 _ h3
    rw [LockInformation.lockAll]
    cases li with
    | mk c t => simp_all
  | succ m ih =>
    intro li h1 h2 h3
    rw [LockInformation.lockAll]
    have hlock : li.lock tid = { lockedCount := li.lockedCount + 1, lockingThreadID := some tid } := by
      rw [LockInformation.lock]
      have : ¬ li.lockedCount = 0 := by omega
      simp only [this, if_false]
      have : (li.lockedCount + 1) % u32Mod = li.lockedCount + 1 :=
        Nat.mod_eq_of_lt (by omega)
      simp [this, h3]
    rw [hlock, ih _ (by show 0 < li.lockedCount + 1; omega)
      (by show li.lockedCount + 1 + m < u32Mod; omega) rfl]
    simp [Nat.add_assoc, Nat.add_comm 1 m]

/-- The first lock() from a free lock records the calling thread as owner. -/
theorem lockAll_from_free (tid : Nat) (n : Nat) (hn : 0 < n) (hlt : n < u32Mod) :
    LockInformation.lockAll { lockedCount := 0, lockingThreadID := none } tid n
      = { lockedCount := n, lockingThreadID := some tid } := by
  match n, hn with
  | m + 1, _ =>
    rw [LockInformation.lockAll]
    have hlock : LockInformation.lock { lockedCount := 0, lockingThreadID := none } tid
        = { lockedCount := 1, lockingThreadID := some tid } := by
      rw [LockInformation.lock]
      simp [Nat.mod_eq_of_lt (show 1 < u32Mod by decide)]
    rw [hlock, lockAll_owned tid m _ (by simp) (by simp; omega) (by simp)]
    simp [Nat.add_comm 1 m]

/-- Once the counter has reached 2 the timer returns (false, 0) and leaves
the state unchanged. -/
theorem RetryCounterLens.timer_saturated (L : RetryCounterLens)
    (s : ControlledEntityState) (h : L.get s = 2) : L.timer s = ((false, 0), s) := by
  have hq : queryRetryTimer (L.get s) = ((false, 0), L.get s) := by
    rw [h]; rfl
  rw [L.timer_eq, hq, L.set_get]

/-- Every iterated call from a saturated counter returns (false, 0). -/
theorem RetryCounterLens.iterate_saturated (L : RetryCounterLens) (n : Nat) :
    ∀ s, L.get s = 2 → iterateCalls L.timer n s = ((false, 0), s) := by
  induction n with
  | zero => intro s h; exact L.timer_saturated s h
  | succ m ih =>
    intro s h
    rw [iterateCalls, L.timer_saturated s h]
    exact ih s h

/-- Retry-timer behaviour from a zero counter: the first two calls return
(true, 1000 ms) and increment the counter, every later call returns
(false, 0 ms). -/
theorem RetryCounterLens.behaviour (L : RetryCounterLens)
    (s : ControlledEntityState) (h : L.get s = 0) (n : Nat) (hn : 2 ≤ n) :
    (L.timer s).1 = (true, 1000) ∧
    L.get (L.timer s).2 = 1 ∧
    (L.timer (L.timer s).2).1 = (true, 1000) ∧
    L.get (L.timer (L.timer s).2).2 = 2 ∧
    (iterateCalls L.timer n s).1 = (false, 0) := by
  have h1 : L.timer s = ((true, 1000), L.set s 1) := by
    rw [L.timer_eq, h]; rfl
  have h2 : L.timer (L.set s 1) = ((true, 1000), L.set s 2) := by
    rw [L.timer_eq, L.get_set, L.set_set]; rfl
  refine ⟨by rw [h1], by rw [h1, L.get_set], by rw [h1, h2], by rw [h1, h2, L.get_set], ?_⟩
  match n, hn with
  | m + 2, _ =>
    rw [iterateCalls, h1, iterateCalls, h2,
      L.iterate_saturated m (L.set s 2) (L.get_set s 2)]

/-! ## Claim theorems -/

/-- C1: for every LockInformation state in which the current thread owns the
lock with uint32 count n > 0, unlockAll() returns n and leaves the lock
unowned with count 0, and then lockAll(n) from the same thread restores the
locked count to its pre-call value n with the calling thread recorded as
owner. -/
theorem claim_C1_unlockAll_lockAll_roundtrip (li : LockInformation) (tid n : Nat)
    (howner : li.lockingThreadID = some tid) (hcount : li.lockedCount = n)
    (hpos : 0 < n) (hlt : n < u32Mod) :
    (li.unlockAll tid).1 = n ∧
    (li.unlockAll tid).2.lockedCount = 0 ∧
    (li.unlockAll tid).2.lockingThreadID = none ∧
    ((li.unlockAll tid).2.lockAll tid n).lockedCount = n ∧
    ((li.unlockAll tid).2.lockAll tid n).lockingThreadID = some tid := by
  have hu : li.unlockAll tid = (n, { lockedCount := 0, lockingThreadID := none }) :=
    unlockAllLoop_owner tid n u32Mod li hcount howner hpos hlt (Nat.le_of_lt hlt)
  rw [hu]
  have hl := lockAll_from_free tid n hpos hlt
  exact ⟨rfl, rfl, rfl, by rw [hl], by rw [hl]⟩

/-- Witness for C1 at the state locked twice by thread 5. -/
theorem claim_C1_witness :
    (LockInformation.mk 2 (some 5)).lockingThreadID = some 5 ∧
    (LockInformation.mk 2 (some 5)).lockedCount = 2 ∧
    0 < 2 ∧ 2 < u32Mod ∧
    (((LockInformation.mk 2 (some 5)).unlockAll 5).1 = 2 ∧
      ((LockInformation.mk 2 (some 5)).unlockAll 5).2.lockedCount = 0 ∧
      ((LockInformation.mk 2 (some 5)).unlockAll 5).2.lockingThreadID = none ∧
      (((LockInformation.mk 2 (some 5)).unlockAll 5).2.lockAll 5 2).lockedCount = 2 ∧
      (((LockInformation.mk 2 (some 5)).unlockAll 5).2.lockAll 5 2).lockingThreadID = some 5) :=
  ⟨rfl, rfl, by decide, by decide,
    claim_C1_unlockAll_lockAll_roundtrip ⟨2, some 5⟩ 5 2 rfl rfl (by decide) (by decide)⟩

/-- C2: for a present configuration tree of an AEM-capable entity, the const
getNodeStaticModel and getNodeDynamicModel fail with InvalidDescriptorIndex
when the index is absent from the addressed per-kind map, and return the
stored staticModel (resp. dynamicModel) of the node when it is present. -/
theorem claim_C2_const_node_model_accessors (s : ControlledEntityState)
    (ci idx : Nat) (field : DescriptorKind) (t : ConfigurationTree)
    (haem : s.entity.aemSupported = true)
    (hci : List.lookup ci s.entityTree.configurationTrees = some t) :
    getNodeStaticModel s ci idx field =
      (match List.lookup idx (t.maps field) with
        | none => .error .invalidDescriptorIndex
        | some node => .ok node.staticModel) ∧
    getNodeDynamicModel s ci idx field =
      (match List.lookup idx (t.maps field) with
        | none => .error .invalidDescriptorIndex
        | some node => .ok node.dynamicModel) := by
  have hct : getConfigurationTree s ci = .ok t := by
    simp [getConfigurationTree, haem, hci]
  constructor
  · simp only [getNodeStaticModel, hct]
  · simp only [getNodeDynamicModel, hct]

/-- Witness for C2 at the sample state: index 0 is present in the stream
input map (static model 7), index 5 is absent. -/
theorem claim_C2_witness :
    sampleEntityState.entity.aemSupported = true ∧
    List.lookup 0 sampleEntityState.entityTree.configurationTrees = some sampleConfig ∧
    getNodeStaticModel sampleEntityState 0 0 .streamInputs = .ok 7 ∧
    getNodeDynamicModel sampleEntityState 0 5 .streamInputs =
      .error .invalidDescriptorIndex := by
  refine ⟨rfl, rfl, ?_, ?_⟩
  · exact ((claim_C2_const_node_model_accessors sampleEntityState 0 0 .streamInputs
      sampleConfig rfl rfl).1).trans rfl
  · exact ((claim_C2_const_node_model_accessors sampleEntityState 0 5 .streamInputs
      sampleConfig rfl rfl).2).trans rfl

/-- C3: for each query kind, starting from a retry count of 0, the retry
timer returns (true, 1000 ms) and increments the retry count on each of the
first two calls, and returns (false, 0 ms) on the third and every subsequent
call. -/
theorem claim_C3_query_retry_timers (s : ControlledEntityState) (n : Nat)
    (h1 : s.registerUnsolRetryCount = 0)
    (h2 : s.queryMilanInfoRetryCount = 0)
    (h3 : s.queryDescriptorRetryCount = 0)
    (h4 : s.queryDynamicInfoRetryCount = 0)
    (h5 : s.queryDescriptorDynamicInfoRetryCount = 0)
    (hn : 2 ≤ n) :
    ((getRegisterUnsolRetryTimer s).1 = (true, 1000) ∧
      (getRegisterUnsolRetryTimer s).2.registerUnsolRetryCount = 1 ∧
      (getRegisterUnsolRetryTimer (getRegisterUnsolRetryTimer s).2).1 = (true, 1000) ∧
      (getRegisterUnsolRetryTimer
        (getRegisterUnsolRetryTimer s).2).2.registerUnsolRetryCount = 2 ∧
      (iterateCalls getRegisterUnsolRetryTimer n s).1 = (false, 0)) ∧
    ((getQueryMilanInfoRetryTimer s).1 = (true, 1000) ∧
      (getQueryMilanInfoRetryTimer s).2.queryMilanInfoRetryCount = 1 ∧
      (getQueryMilanInfoRetryTimer (getQueryMilanInfoRetryTimer s).2).1 = (true, 1000) ∧
      (getQueryMilanInfoRetryTimer
        (getQueryMilanInfoRetryTimer s).2).2.queryMilanInfoRetryCount = 2 ∧
      (iterateCalls getQueryMilanInfoRetryTimer n s).1 = (false, 0)) ∧
    ((getQueryDescriptorRetryTimer s).1 = (true, 1000) ∧
      (getQueryDescriptorRetryTimer s).2.queryDescriptorRetryCount = 1 ∧
      (getQueryDescriptorRetryTimer (getQueryDescriptorRetryTimer s).2).1 = (true, 1000) ∧
      (getQueryDescriptorRetryTimer
        (getQueryDescriptorRetryTimer s).2).2.queryDescriptorRetryCount = 2 ∧
      (iterateCalls getQueryDescriptorRetryTimer n s).1 = (false, 0)) ∧
    ((getQueryDynamicInfoRetryTimer s).1 = (true, 1000) ∧
      (getQueryDynamicInfoRetryTimer s).2.queryDynamicInfoRetryCount = 1 ∧
      (getQueryDynamicInfoRetryTimer (getQueryDynamicInfoRetryTimer s).2).1 = (true, 1000) ∧
      (getQueryDynamicInfoRetryTimer
        (getQueryDynamicInfoRetryTimer s).2).2.queryDynamicInfoRetryCount = 2 ∧
      (iterateCalls getQueryDynamicInfoRetryTimer n s).1 = (false, 0)) ∧
    ((getQueryDescriptorDynamicInfoRetryTimer s).1 = (true, 1000) ∧
      (getQueryDescriptorDynamicInfoRetryTimer s).2.queryDescriptorDynamicInfoRetryCount = 1 ∧
      (getQueryDescriptorDynamicInfoRetryTimer
        (getQueryDescriptorDynamicInfoRetryTimer s).2).1 = (true, 1000) ∧
      (getQueryDescriptorDynamicInfoRetryTimer
        (getQueryDescriptorDynamicInfoRetryTimer s).2).2.queryDescriptorDynamicInfoRetryCount = 2 ∧
      (iterateCalls getQueryDescriptorDynamicInfoRetryTimer n s).1 = (false, 0)) :=
  ⟨registerUnsolLens.behaviour s h1 n hn,
    milanInfoLens.behaviour s h2 n hn,
    descriptorLens.behaviour s h3 n hn,
    dynamicInfoLens.behaviour s h4 n hn,
    descriptorDynamicInfoLens.behaviour s h5 n hn⟩

/-- Witness for C3 at the freshly discovered sample entity, with the third
call expressed as iterateCalls at 2. -/
theorem claim_C3_witness :
    sampleFreshState.registerUnsolRetryCount = 0 ∧
    sampleFreshState.queryMilanInfoRetryCount = 0 ∧
    sampleFreshState.queryDescriptorRetryCount = 0 ∧
    sampleFreshState.queryDynamicInfoRetryCount = 0 ∧
    sampleFreshState.queryDescriptorDynamicInfoRetryCount = 0 ∧
    2 ≤ 2 ∧
    (getRegisterUnsolRetryTimer sampleFreshState).1 = (true, 1000) ∧
    (iterateCalls getRegisterUnsolRetryTimer 2 sampleFreshState).1 = (false, 0) ∧
    (getQueryMilanInfoRetryTimer sampleFreshState).1 = (true, 1000) ∧
    (iterateCalls getQueryMilanInfoRetryTimer 2 sampleFreshState).1 = (false, 0) ∧
    (getQueryDescriptorRetryTimer sampleFreshState).1 = (true, 1000) ∧
    (iterateCalls getQueryDescriptorRetryTimer 2 sampleFreshState).1 = (false, 0) ∧
    (getQueryDynamicInfoRetryTimer sampleFreshState).1 = (true, 1000) ∧
    (iterateCalls getQueryDynamicInfoRetryTimer 2 sampleFreshState).1 = (false, 0) ∧
    (getQueryDescriptorDynamicInfoRetryTimer sampleFreshState).1 = (true, 1000) ∧
    (iterateCalls getQueryDescriptorDynamicInfoRetryTimer 2 sampleFreshState).1 = (false, 0) := by
  have h := claim_C3_query_retry_timers sampleFreshState 2 rfl rfl rfl rfl rfl (by decide)
  exact ⟨rfl, rfl, rfl, rfl, rfl, by decide,
    h.1.1, h.1.2.2.2.2,
    h.2.1.1, h.2.1.2.2.2.2,
    h.2.2.1.1, h.2.2.1.2.2.2.2,
    h.2.2.2.1.1, h.2.2.2.1.2.2.2.2,
    h.2.2.2.2.1, h.2.2.2.2.2.2.2.2⟩

/-- C4: for each expected-response kind, checkAndClear returns true and
removes the key when it is in the expected set and returns false leaving the
state unchanged otherwise; setExpected is idempotent, so after two
setExpected calls the first checkAndClear returns true and the second
returns false. -/
theorem claim_C4_expected_sets (s : ControlledEntityState)
    (ci mt dt di dyt sub ddt : Nat) :
    (((checkAndClearExpectedRegisterUnsol s).1 = true ↔ s.expectedRegisterUnsol = true) ∧
      (s.expectedRegisterUnsol = true →
        (checkAndClearExpectedRegisterUnsol s).2.expectedRegisterUnsol = false) ∧
      (s.expectedRegisterUnsol = false → (checkAndClearExpectedRegisterUnsol s).2 = s) ∧
      setRegisterUnsolExpected (setRegisterUnsolExpected s) = setRegisterUnsolExpected s ∧
      (checkAndClearExpectedRegisterUnsol
        (setRegisterUnsolExpected (setRegisterUnsolExpected s))).1 = true ∧
      (checkAndClearExpectedRegisterUnsol
        (checkAndClearExpectedRegisterUnsol
          (setRegisterUnsolExpected (setRegisterUnsolExpected s))).2).1 = false) ∧
    (((checkAndClearExpectedMilanInfo s mt).1 = true ↔ mt ∈ s.expectedMilanInfo) ∧
      (mt ∈ s.expectedMilanInfo →
        (checkAndClearExpectedMilanInfo s mt).2.expectedMilanInfo =
          s.expectedMilanInfo.erase mt ∧
        mt ∉ (checkAndClearExpectedMilanInfo s mt).2.expectedMilanInfo) ∧
      (mt ∉ s.expectedMilanInfo → (checkAndClearExpectedMilanInfo s mt).2 = s) ∧
      setMilanInfoExpected (setMilanInfoExpected s mt) mt = setMilanInfoExpected s mt ∧
      (checkAndClearExpectedMilanInfo
        (setMilanInfoExpected (setMilanInfoExpected s mt) mt) mt).1 = true ∧
      (checkAndClearExpectedMilanInfo
        (checkAndClearExpectedMilanInfo
          (setMilanInfoExpected (setMilanInfoExpected s mt) mt) mt).2 mt).1 = false) ∧
    (((checkAndClearExpectedDescriptor s ci dt di).1 = true ↔
        (ci, descriptorKey dt di) ∈ s.expectedDescriptors) ∧
      ((ci, descriptorKey dt di) ∈ s.expectedDescriptors →
        (checkAndClearExpectedDescriptor s ci dt di).2.expectedDescriptors =
          s.expectedDescriptors.erase (ci, descriptorKey dt di) ∧
        (ci, descriptorKey dt di) ∉
          (checkAndClearExpectedDescriptor s ci dt di).2.expectedDescriptors) ∧
      ((ci, descriptorKey dt di) ∉ s.expectedDescriptors →
        (checkAndClearExpectedDescriptor s ci dt di).2 = s) ∧
      setDescriptorExpected (setDescriptorExpected s ci dt di) ci dt di =
        setDescriptorExpected s ci dt di ∧
      (checkAndClearExpectedDescriptor
        (setDescriptorExpected (setDescriptorExpected s ci dt di) ci dt di) ci dt di).1 =
        true ∧
      (checkAndClearExpectedDescriptor
        (checkAndClearExpectedDescriptor
          (setDescriptorExpected (setDescriptorExpected s ci dt di) ci dt di)
          ci dt di).2 ci dt di).1 = false) ∧
    (((checkAndClearExpectedDynamicInfo s ci dyt di sub).1 = true ↔
        (ci, dynamicInfoKey dyt di sub) ∈ s.expectedDynamicInfo) ∧
      ((ci, dynamicInfoKey dyt di sub) ∈ s.expectedDynamicInfo →
        (checkAndClearExpectedDynamicInfo s ci dyt di sub).2.expectedDynamicInfo =
          s.expectedDynamicInfo.erase (ci, dynamicInfoKey dyt di sub) ∧
        (ci, dynamicInfoKey dyt di sub) ∉
          (checkAndClearExpectedDynamicInfo s ci dyt di sub).2.expectedDynamicInfo) ∧
      ((ci, dynamicInfoKey dyt di sub) ∉ s.expectedDynamicInfo →
        (checkAndClearExpectedDynamicInfo s ci dyt di sub).2 = s) ∧
      setDynamicInfoExpected (setDynamicInfoExpected s ci dyt di sub) ci dyt di sub =
        setDynamicInfoExpected s ci dyt di sub ∧
      (checkAndClearExpectedDynamicInfo
        (setDynamicInfoExpected (setDynamicInfoExpected s ci dyt di sub) ci dyt di sub)
        ci dyt di sub).1 = true ∧
      (checkAndClearExpectedDynamicInfo
        (checkAndClearExpectedDynamicInfo
          (setDynamicInfoExpected (setDynamicInfoExpected s ci dyt di sub) ci dyt di sub)
          ci dyt di sub).2 ci dyt di sub).1 = false) ∧
    (((checkAndClearExpectedDescriptorDynamicInfo s ci ddt di).1 = true ↔
        (ci, descriptorDynamicInfoKey ddt di) ∈ s.expectedDescriptorDynamicInfo) ∧
      ((ci, descriptorDynamicInfoKey ddt di) ∈ s.expectedDescriptorDynamicInfo →
        (checkAndClearExpectedDescriptorDynamicInfo s ci ddt di).2.expectedDescriptorDynamicInfo =
          s.expectedDescriptorDynamicInfo.erase (ci, descriptorDynamicInfoKey ddt di) ∧
        (ci, descriptorDynamicInfoKey ddt di) ∉
          (checkAndClearExpectedDescriptorDynamicInfo s ci ddt di).2.expectedDescriptorDynamicInfo) ∧
      ((ci, descriptorDynamicInfoKey ddt di) ∉ s.expectedDescriptorDynamicInfo →
        (checkAndClearExpectedDescriptorDynamicInfo s ci ddt di).2 = s) ∧
      setDescriptorDynamicInfoExpected
        (setDescriptorDynamicInfoExpected s ci ddt di) ci ddt di =
        setDescriptorDynamicInfoExpected s ci ddt di ∧
      (checkAndClearExpectedDescriptorDynamicInfo
        (setDescriptorDynamicInfoExpected
          (setDescriptorDynamicInfoExpected s ci ddt di) ci ddt di) ci ddt di).1 = true ∧
      (checkAndClearExpectedDescriptorDynamicInfo
        (checkAndClearExpectedDescriptorDynamicInfo
          (setDescriptorDynamicInfoExpected
            (setDescriptorDynamicInfoExpected s ci ddt di) ci ddt di)
          ci ddt di).2 ci ddt di).1 = false) := by
  refine ⟨⟨?_, ?_, ?_, ?_, ?_, ?_⟩, ⟨?_, ?_, ?_, ?_, ?_, ?_⟩, ⟨?_, ?_, ?_, ?_, ?_, ?_⟩,
    ⟨?_, ?_, ?_, ?_, ?_, ?_⟩, ⟨?_, ?_, ?_, ?_, ?_, ?_⟩⟩
  · by_cases hb : s.expectedRegisterUnsol <;>
      simp [checkAndClearExpectedRegisterUnsol, hb]
  · intro hb; simp [checkAndClearExpectedRegisterUnsol, hb]
  · intro hb; simp [checkAndClearExpectedRegisterUnsol, hb]
  · rfl
  · simp [checkAndClearExpectedRegisterUnsol, setRegisterUnsolExpected]
  · simp [checkAndClearExpectedRegisterUnsol, setRegisterUnsolExpected]
  · by_cases hm : mt ∈ s.expectedMilanInfo <;> simp [checkAndClearExpectedMilanInfo, hm]
  · intro hm
    simp [checkAndClearExpectedMilanInfo, hm, Finset.not_mem_erase]
  · intro hm; simp [checkAndClearExpectedMilanInfo, hm]
  · simp [setMilanInfoExpected, Finset.insert_idem]
  · simp [checkAndClearExpectedMilanInfo, setMilanInfoExpected]
  · simp [checkAndClearExpectedMilanInfo, setMilanInfoExpected, Finset.not_mem_erase]
  · by_cases hd : (ci, descriptorKey dt di) ∈ s.expectedDescriptors <;>
      simp [checkAndClearExpectedDescriptor, hd]
  · intro hd
    simp [checkAndClearExpectedDescriptor, hd, Finset.not_mem_erase]
  · intro hd; simp [checkAndClearExpectedDescriptor, hd]
  · simp [setDescriptorExpected, Finset.insert_idem]
  · simp [checkAndClearExpectedDescriptor, setDescriptorExpected]
  · simp [checkAndClearExpectedDescriptor, setDescriptorExpected, Finset.not_mem_erase]
  · by_cases hy : (ci, dynamicInfoKey dyt di sub) ∈ s.expectedDynamicInfo <;>
      simp [checkAndClearExpectedDynamicInfo, hy]
  · intro hy
    simp [checkAndClearExpectedDynamicInfo, hy, Finset.not_mem_erase]
  · intro hy; simp [checkAndClearExpectedDynamicInfo, hy]
  · simp [setDynamicInfoExpected, Finset.insert_idem]
  · simp [checkAndClearExpectedDynamicInfo, setDynamicInfoExpected]
  · simp [checkAndClearExpectedDynamicInfo, setDynamicInfoExpected, Finset.not_mem_erase]
  · by_cases hdd : (ci, descriptorDynamicInfoKey ddt di) ∈ s.expectedDescriptorDynamicInfo <;>
      simp [checkAndClearExpectedDescriptorDynamicInfo, hdd]
  · intro hdd
    simp [checkAndClearExpectedDescriptorDynamicInfo, hdd, Finset.not_mem_erase]
  · intro hdd; simp [checkAndClearExpectedDescriptorDynamicInfo, hdd]
  · simp [setDescriptorDynamicInfoExpected, Finset.insert_idem]
  · simp [checkAndClearExpectedDescriptorDynamicInfo, setDescriptorDynamicInfoExpected]
  · simp [checkAndClearExpectedDescriptorDynamicInfo, setDescriptorDynamicInfoExpected,
      Finset.not_mem_erase]

/-- Witness for C4 at the freshly discovered sample entity with concrete key
components. -/
theorem claim_C4_witness :
    (checkAndClearExpectedRegisterUnsol
      (checkAndClearExpectedRegisterUnsol
        (setRegisterUnsolExpected (setRegisterUnsolExpected sampleFreshState))).2).1 = false ∧
    (checkAndClearExpectedMilanInfo
      (setMilanInfoExpected (setMilanInfoExpected sampleFreshState 0) 0) 0).1 = true ∧
    (checkAndClearExpectedDescriptor
      (checkAndClearExpectedDescriptor
        (setDescriptorExpected (setDescriptorExpected sampleFreshState 0 6 4) 0 6 4)
        0 6 4).2 0 6 4).1 = false ∧
    (checkAndClearExpectedDynamicInfo
      (setDynamicInfoExpected (setDynamicInfoExpected sampleFreshState 0 8 7 1) 0 8 7 1)
      0 8 7 1).1 = true ∧
    (checkAndClearExpectedDescriptorDynamicInfo
      (setDescriptorDynamicInfoExpected
        (setDescriptorDynamicInfoExpected sampleFreshState 0 3 2) 0 3 2) 0 3 2).1 = true := by
  have h := claim_C4_expected_sets sampleFreshState 0 0 6 4 8 1 3
  exact ⟨h.1.2.2.2.2.2, h.2.1.2.2.2.2.1, h.2.2.1.2.2.2.2.2,
    h.2.2.2.1.2.2.2.2.1, h.2.2.2.2.2.2.2.2.1⟩

/-- C5: setCachedEntityTree returns true and installs the cached tree iff the
live descriptor's entity model id equals the cached tree's and the cached
tree is complete; when it returns false the entity's tree is unchanged. -/
theorem claim_C5_setCachedEntityTree (s : ControlledEntityState)
    (cached : EntityTree) (descriptor : EntityDescriptor) (forAll : Bool) :
    ((setCachedEntityTree s cached descriptor forAll).1 = true ↔
      (descriptor.entityModelID = cached.entityModelID ∧
        isEntityModelComplete cached descriptor.configurationsCount = true)) ∧
    ((setCachedEntityTree s cached descriptor forAll).1 = true →
      (setCachedEntityTree s cached descriptor forAll).2.entityTree = cached) ∧
    ((setCachedEntityTree s cached descriptor forAll).1 = false →
      (setCachedEntityTree s cached descriptor forAll).2 = s) := by
  by_cases h1 : descriptor.entityModelID = cached.entityModelID
  · by_cases h2 : isEntityModelComplete cached descriptor.configurationsCount = true
    · simp [setCachedEntityTree, h1, h2]
    · simp [setCachedEntityTree, h1, h2]
  · simp [setCachedEntityTree, h1]

/-- Witness for C5: the matching sample descriptor and complete sample tree
are accepted and installed. -/
theorem claim_C5_witness :
    ((setCachedEntityTree sampleFreshState sampleCachedTree sampleDescriptor true).1 = true ↔
      (sampleDescriptor.entityModelID = sampleCachedTree.entityModelID ∧
        isEntityModelComplete sampleCachedTree sampleDescriptor.configurationsCount = true)) ∧
    ((setCachedEntityTree sampleFreshState sampleCachedTree sampleDescriptor true).1 = true →
      (setCachedEntityTree sampleFreshState sampleCachedTree
        sampleDescriptor true).2.entityTree = sampleCachedTree) ∧
    ((setCachedEntityTree sampleFreshState sampleCachedTree sampleDescriptor true).1 = false →
      (setCachedEntityTree sampleFreshState sampleCachedTree sampleDescriptor true).2 =
        sampleFreshState) :=
  claim_C5_setCachedEntityTree sampleFreshState sampleCachedTree sampleDescriptor true

/-- The step served by a query kind determines the kind. -/
theorem QueryKind.stepOf_injective : ∀ k k2 : QueryKind, k.stepOf = k2.stepOf → k = k2 := by
  intro k k2 h
  cases k <;> cases k2 <;> simp_all [QueryKind.stepOf]

/-- The steps bitset is empty iff every step is cleared. -/
theorem enumerationStepsEmpty_iff (s : ControlledEntityState) :
    enumerationStepsEmpty s = true ↔ ∀ e, s.enumerationSteps e = false := by
  constructor
  · intro h e
    have h2 := List.all_eq_true.mp h
    have h3 := h2 e (by cases e <;> simp [EnumerationStep.allSteps])
    simpa using h3
  · intro h
    apply List.all_eq_true.mpr
    intro e _
    simp [h e]

/-- Clearing a step leaves every expected registry untouched. -/
theorem gotAllExpectedOf_clearStep (s : ControlledEntityState) (e : EnumerationStep)
    (k : QueryKind) :
    gotAllExpectedOf (clearEnumerationStep s e) k = gotAllExpectedOf s k := by
  cases k <;> rfl

/-- onEntityFullyLoaded leaves every expected registry untouched. -/
theorem gotAllExpectedOf_fullyLoaded (s : ControlledEntityState) (k : QueryKind) :
    gotAllExpectedOf (onEntityFullyLoaded s) k = gotAllExpectedOf s k := by
  cases k <;> rfl

/-- The machine invariant holds at construction: every registry is empty. -/
theorem enumInvariant_init (ent : EntityRecord) (virt : Bool)
    (steps0 : EnumerationStep → Bool) :
    EnumInvariant (setEnumerationSteps (mkControlledEntity ent virt) steps0) := by
  intro k _
  cases k <;> simp [gotAllExpectedOf, gotExpectedRegisterUnsol, gotAllExpectedMilanInfo,
    gotAllExpectedDescriptors, gotAllExpectedDynamicInfo,
    gotAllExpectedDescriptorDynamicInfo, setEnumerationSteps, mkControlledEntity]

/-- The invariant survives an operation that fires only while the step of its
kind is pending and leaves the other registries untouched. -/
theorem enumInvariant_of_guarded_set (s post : ControlledEntityState) (k0 : QueryKind)
    (h : EnumInvariant s)
    (hsteps : post.enumerationSteps = s.enumerationSteps)
    (hg : s.enumerationSteps k0.stepOf = true)
    (hother : ∀ k, k ≠ k0 → gotAllExpectedOf post k = gotAllExpectedOf s k) :
    EnumInvariant post := by
  intro k hk
  rw [hsteps] at hk
  by_cases hkk : k = k0
  · subst hkk; rw [hk] at hg; cases hg
  · rw [hother k hkk]; exact h k hk

/-- The invariant survives an operation that leaves the steps bitset alone
and never makes an empty registry non-empty. -/
theorem enumInvariant_of_mono (s post : ControlledEntityState)
    (h : EnumInvariant s)
    (hsteps : post.enumerationSteps = s.enumerationSteps)
    (hmono : ∀ k, gotAllExpectedOf s k = true → gotAllExpectedOf post k = true) :
    EnumInvariant post := by
  intro k hk
  rw [hsteps] at hk
  exact hmono k (h k hk)

/-- Every transition of the enumeration machine preserves the invariant. -/
theorem enumInvariant_step (s : ControlledEntityState) (op : EnumOp)
    (h : EnumInvariant s) : EnumInvariant (applyEnumOp s op) := by
  cases op with
  | setRegisterUnsolExpectedOp =>
    by_cases hg : s.enumerationSteps QueryKind.registerUnsol.stepOf = true
    · refine enumInvariant_of_guarded_set s _ .registerUnsol h ?_ hg ?_
      · simp [applyEnumOp, hg, setRegisterUnsolExpected]
      · intro k hkk
        cases k <;> simp_all [applyEnumOp, setRegisterUnsolExpected, gotAllExpectedOf,
          gotAllExpectedMilanInfo, gotAllExpectedDescriptors, gotAllExpectedDynamicInfo,
          gotAllExpectedDescriptorDynamicInfo]
    · have hpost : applyEnumOp s .setRegisterUnsolExpectedOp = s := by
        simp [applyEnumOp, hg]
      rw [hpost]; exact h
  | checkRegisterUnsolOp =>
    refine enumInvariant_of_mono s _ h ?_ ?_
    · by_cases hb : s.expectedRegisterUnsol <;>
        simp [applyEnumOp, checkAndClearExpectedRegisterUnsol, hb]
    · intro k hka
      by_cases hb : s.expectedRegisterUnsol
      · cases k <;> simp_all [applyEnumOp, checkAndClearExpectedRegisterUnsol,
          gotAllExpectedOf, gotExpectedRegisterUnsol, gotAllExpectedMilanInfo,
          gotAllExpectedDescriptors, gotAllExpectedDynamicInfo,
          gotAllExpectedDescriptorDynamicInfo]
      · simp_all [applyEnumOp, checkAndClearExpectedRegisterUnsol, hb]
  | setMilanInfoExpectedOp t =>
    by_cases hg : s.enumerationSteps QueryKind.milanInfo.stepOf = true
    · refine enumInvariant_of_guarded_set s _ .milanInfo h ?_ hg ?_
      · simp [applyEnumOp, hg, setMilanInfoExpected]
      · intro k hkk
        cases k <;> simp_all [applyEnumOp, setMilanInfoExpected, gotAllExpectedOf,
          gotExpectedRegisterUnsol, gotAllExpectedDescriptors, gotAllExpectedDynamicInfo,
          gotAllExpectedDescriptorDynamicInfo]
    · have hpost : applyEnumOp s (.setMilanInfoExpectedOp t) = s := by
        simp [applyEnumOp, hg]
      rw [hpost]; exact h
  | checkMilanInfoOp t =>
    refine enumInvariant_of_mono s _ h ?_ ?_
    · by_cases hm : t ∈ s.expectedMilanInfo <;>
        simp [applyEnumOp, checkAndClearExpectedMilanInfo, hm]
    · intro k hka
      by_cases hm : t ∈ s.expectedMilanInfo
      · cases k <;> simp_all [applyEnumOp, checkAndClearExpectedMilanInfo,
          gotAllExpectedOf, gotExpectedRegisterUnsol, gotAllExpectedMilanInfo,
          gotAllExpectedDescriptors, gotAllExpectedDynamicInfo,
          gotAllExpectedDescriptorDynamicInfo]
      · simp_all [applyEnumOp, checkAndClearExpectedMilanInfo, hm]
  | setDescriptorExpectedOp ci dt di =>
    by_cases hg : s.enumerationSteps QueryKind.descriptor.stepOf = true
    · refine enumInvariant_of_guarded_set s _ .descriptor h ?_ hg ?_
      · simp [applyEnumOp, hg, setDescriptorExpected]
      · intro k hkk
        cases k <;> simp_all [applyEnumOp, setDescriptorExpected, gotAllExpectedOf,
          gotExpectedRegisterUnsol, gotAllExpectedMilanInfo, gotAllExpectedDynamicInfo,
          gotAllExpectedDescriptorDynamicInfo]
    · have hpost : applyEnumOp s (.setDescriptorExpectedOp ci dt di) = s := by
        simp [applyEnumOp, hg]
      rw [hpost]; exact h
  | checkDescriptorOp ci dt di =>
    refine enumInvariant_of_mono s _ h ?_ ?_
    · by_cases hm : (ci, descriptorKey dt di) ∈ s.expectedDescriptors <;>
        simp [applyEnumOp, checkAndClearExpectedDescriptor, hm]
    · intro k hka
      by_cases hm : (ci, descriptorKey dt di) ∈ s.expectedDescriptors
      · cases k <;> simp_all [applyEnumOp, checkAndClearExpectedDescriptor,
          gotAllExpectedOf, gotExpectedRegisterUnsol, gotAllExpectedMilanInfo,
          gotAllExpectedDescriptors, gotAllExpectedDynamicInfo,
          gotAllExpectedDescriptorDynamicInfo]
      · simp_all [applyEnumOp, checkAndClearExpectedDescriptor, hm]
  | setDynamicInfoExpectedOp ci dt di sub =>
    by_cases hg : s.enumerationSteps QueryKind.dynamicInfo.stepOf = true
    · refine enumInvariant_of_guarded_set s _ .dynamicInfo h ?_ hg ?_
      · simp [applyEnumOp, hg, setDynamicInfoExpected]
      · intro k hkk
        cases k <;> simp_all [applyEnumOp, setDynamicInfoExpected, gotAllExpectedOf,
          gotExpectedRegisterUnsol, gotAllExpectedMilanInfo, gotAllExpectedDescriptors,
          gotAllExpectedDescriptorDynamicInfo]
    · have hpost : applyEnumOp s (.setDynamicInfoExpectedOp ci dt di sub) = s := by
        simp [applyEnumOp, hg]
      rw [hpost]; exact h
  | checkDynamicInfoOp ci dt di sub =>
    refine enumInvariant_of_mono s _ h ?_ ?_
    · by_cases hm : (ci, dynamicInfoKey dt di sub) ∈ s.expectedDynamicInfo <;>
        simp [applyEnumOp, checkAndClearExpectedDynamicInfo, hm]
    · intro k hka
      by_cases hm : (ci, dynamicInfoKey dt di sub) ∈ s.expectedDynamicInfo
      · cases k <;> simp_all [applyEnumOp, checkAndClearExpectedDynamicInfo,
          gotAllExpectedOf, gotExpectedRegisterUnsol, gotAllExpectedMilanInfo,
          gotAllExpectedDescriptors, gotAllExpectedDynamicInfo,
          gotAllExpectedDescriptorDynamicInfo]
      · simp_all [applyEnumOp, checkAndClearExpectedDynamicInfo, hm]
  | setDescriptorDynamicInfoExpectedOp ci dt di =>
    by_cases hg : s.enumerationSteps QueryKind.descriptorDynamicInfo.stepOf = true
    · refine enumInvariant_of_guarded_set s _ .descriptorDynamicInfo h ?_ hg ?_
      · simp [applyEnumOp, hg, setDescriptorDynamicInfoExpected]
      · intro k hkk
        cases k <;> simp_all [applyEnumOp, setDescriptorDynamicInfoExpected,
          gotAllExpectedOf, gotExpectedRegisterUnsol, gotAllExpectedMilanInfo,
          gotAllExpectedDescriptors, gotAllExpectedDynamicInfo]
    · have hpost : applyEnumOp s (.setDescriptorDynamicInfoExpectedOp ci dt di) = s := by
        simp [applyEnumOp, hg]
      rw [hpost]; exact h
  | checkDescriptorDynamicInfoOp ci dt di =>
    refine enumInvariant_of_mono s _ h ?_ ?_
    · by_cases hm : (ci, descriptorDynamicInfoKey dt di) ∈ s.expectedDescriptorDynamicInfo <;>
        simp [applyEnumOp, checkAndClearExpectedDescriptorDynamicInfo, hm]
    · intro k hka
      by_cases hm : (ci, descriptorDynamicInfoKey dt di) ∈ s.expectedDescriptorDynamicInfo
      · cases k <;> simp_all [applyEnumOp, checkAndClearExpectedDescriptorDynamicInfo,
          gotAllExpectedOf, gotExpectedRegisterUnsol, gotAllExpectedMilanInfo,
          gotAllExpectedDescriptors, gotAllExpectedDynamicInfo,
          gotAllExpectedDescriptorDynamicInfo]
      · simp_all [applyEnumOp, checkAndClearExpectedDescriptorDynamicInfo, hm]
  | completeStepOp k0 =>
    by_cases hg : (s.enumerationSteps k0.stepOf && gotAllExpectedOf s k0) = true
    · have hgot : gotAllExpectedOf s k0 = true := by
        have h2 := hg
        simp only [Bool.and_eq_true] at h2
        exact h2.2
      by_cases he : enumerationStepsEmpty (clearEnumerationStep s k0.stepOf) = true
      · have hpost : applyEnumOp s (.completeStepOp k0) =
            onEntityFullyLoaded (clearEnumerationStep s k0.stepOf) := by
          simp [applyEnumOp, hg, he]
        rw [hpost]
        intro k hk
        rw [gotAllExpectedOf_fullyLoaded, gotAllExpectedOf_clearStep]
        by_cases hkk : k = k0
        · subst hkk; exact hgot
        · have hne : k.stepOf ≠ k0.stepOf := fun hcon =>
            hkk (QueryKind.stepOf_injective k k0 hcon)
          have hk2 : s.enumerationSteps k.stepOf = false := by
            simpa [onEntityFullyLoaded, clearEnumerationStep, hne] using hk
          exact h k hk2
      · have hpost : applyEnumOp s (.completeStepOp k0) =
            clearEnumerationStep s k0.stepOf := by
          simp [applyEnumOp, hg, he]
        rw [hpost]
        intro k hk
        rw [gotAllExpectedOf_clearStep]
        by_cases hkk : k = k0
        · subst hkk; exact hgot
        · have hne : k.stepOf ≠ k0.stepOf := fun hcon =>
            hkk (QueryKind.stepOf_injective k k0 hcon)
          have hk2 : s.enumerationSteps k.stepOf = false := by
            simpa [clearEnumerationStep, hne] using hk
          exact h k hk2
    · have hpost : applyEnumOp s (.completeStepOp k0) = s := by
        simp only [applyEnumOp]
        rw [if_neg]
        simp_all
      rw [hpost]; exact h

/-- Every reachable state of the enumeration machine satisfies the
invariant. -/
theorem enumReachable_invariant (s : ControlledEntityState) (hr : EnumReachable s) :
    EnumInvariant s := by
  induction hr with
  | init ent virt steps0 => exact enumInvariant_init ent virt steps0
  | step s op _ ih => exact enumInvariant_step s op ih

/-- C6: after onEntityFullyLoaded has been invoked by the transition that
empties the enumeration-step bitset of a reachable entity, the steps bitset
is empty, the advertised flag is true, and all four gotAllExpected accessors
return true. -/
theorem claim_C6_fully_loaded_state (s : ControlledEntityState) (k : QueryKind)
    (hr : EnumReachable s)
    (hstep : s.enumerationSteps k.stepOf = true)
    (hgot : gotAllExpectedOf s k = true)
    (hempty : enumerationStepsEmpty (clearEnumerationStep s k.stepOf) = true) :
    (∀ e, getEnumerationSteps (applyEnumOp s (.completeStepOp k)) e = false) ∧
    wasAdvertised (applyEnumOp s (.completeStepOp k)) = true ∧
    gotAllExpectedMilanInfo (applyEnumOp s (.completeStepOp k)) = true ∧
    gotAllExpectedDescriptors (applyEnumOp s (.completeStepOp k)) = true ∧
    gotAllExpectedDynamicInfo (applyEnumOp s (.completeStepOp k)) = true ∧
    gotAllExpectedDescriptorDynamicInfo (applyEnumOp s (.completeStepOp k)) = true := by
  have hpost : applyEnumOp s (.completeStepOp k) =
      onEntityFullyLoaded (clearEnumerationStep s k.stepOf) := by
    simp [applyEnumOp, hstep, hgot, hempty]
  have hinv : EnumInvariant (applyEnumOp s (.completeStepOp k)) :=
    enumReachable_invariant _ (EnumReachable.step s _ hr)
  have hall : ∀ e, getEnumerationSteps (applyEnumOp s (.completeStepOp k)) e = false := by
    intro e
    have h2 := (enumerationStepsEmpty_iff (clearEnumerationStep s k.stepOf)).mp hempty e
    rw [hpost]
    simpa [getEnumerationSteps, onEntityFullyLoaded] using h2
  refine ⟨hall, ?_, ?_, ?_, ?_, ?_⟩
  · rw [hpost]; rfl
  · exact hinv .milanInfo (hall QueryKind.milanInfo.stepOf)
  · exact hinv .descriptor (hall QueryKind.descriptor.stepOf)
  · exact hinv .dynamicInfo (hall QueryKind.dynamicInfo.stepOf)
  · exact hinv .descriptorDynamicInfo (hall QueryKind.descriptorDynamicInfo.stepOf)

/-- Witness for C6: a sample run whose only pending step, GetDynamicInfo,
completes with no outstanding expected responses. -/
theorem claim_C6_witness :
    sampleEnumState.enumerationSteps QueryKind.dynamicInfo.stepOf = true ∧
    gotAllExpectedOf sampleEnumState .dynamicInfo = true ∧
    enumerationStepsEmpty
      (clearEnumerationStep sampleEnumState QueryKind.dynamicInfo.stepOf) = true ∧
    ((∀ e, getEnumerationSteps
        (applyEnumOp sampleEnumState (.completeStepOp .dynamicInfo)) e = false) ∧
      wasAdvertised (applyEnumOp sampleEnumState (.completeStepOp .dynamicInfo)) = true ∧
      gotAllExpectedMilanInfo
        (applyEnumOp sampleEnumState (.completeStepOp .dynamicInfo)) = true ∧
      gotAllExpectedDescriptors
        (applyEnumOp sampleEnumState (.completeStepOp .dynamicInfo)) = true ∧
      gotAllExpectedDynamicInfo
        (applyEnumOp sampleEnumState (.completeStepOp .dynamicInfo)) = true ∧
      gotAllExpectedDescriptorDynamicInfo
        (applyEnumOp sampleEnumState (.completeStepOp .dynamicInfo)) = true) := by
  refine ⟨by decide, by decide, by decide, ?_⟩
  exact claim_C6_fully_loaded_state sampleEnumState .dynamicInfo
    (EnumReachable.init sampleEntity false stepsOnlyDyn)
    (by decide) (by decide) (by decide)

/-- Appending a fresh key at the end of an association list makes it found
when it was absent before. -/
theorem lookup_append_single {β : Type} (k : Nat) (v : β) :
    ∀ (m : List (Nat × β)), List.lookup k m = none →
      List.lookup k (m ++ [(k, v)]) = some v := by
  intro m
  induction m with
  | nil => intro _; simp [List.lookup]
  | cons p rest ih =>
    intro h
    rw [List.cons_append]
    rw [List.lookup] at h ⊢
    cases hbe : (k == p.1) with
    | true => rw [hbe] at h; simp at h
    | false => rw [hbe] at h; exact ih h

/-- Replacing the entry of a present key makes the lookup find the new
value. -/
theorem lookup_updateConfigurationTrees (ci : Nat) (t2 : ConfigurationTree) :
    ∀ (l : List (Nat × ConfigurationTree)) (t : ConfigurationTree),
      List.lookup ci l = some t →
      List.lookup ci (updateConfigurationTrees l ci t2) = some t2 := by
  intro l
  induction l with
  | nil => intro t h; cases h
  | cons p rest ih =>
    intro t h
    rw [updateConfigurationTrees, List.map_cons]
    by_cases hp : p.1 = ci
    · simp [hp]
    · have hbe : (ci == p.1) = false := by simp [Ne.symm hp]
      rw [List.lookup] at h
      rw [hbe] at h
      simp only [hp, if_false]
      rw [List.lookup, hbe]
      exact ih t h

/-- C7: for a stream port input present in the current configuration, the
non-redundant view is exactly the port's audio mappings with every mapping
whose stream index is classified redundant-secondary removed: no secondary
mapping appears in the result, and every other mapping of the port does. -/
theorem claim_C7_nonredundant_audio_mappings (s : ControlledEntityState)
    (spi : Nat) (mappings : List AudioMapping)
    (h : getStreamPortInputAudioMappings s spi = .ok mappings) :
    getStreamPortInputNonRedundantAudioMappings s spi =
      .ok (mappings.filter fun m => !isRedundantSecondaryStreamInput s m.streamIndex) ∧
    (∀ m ∈ mappings.filter fun m2 => !isRedundantSecondaryStreamInput s m2.streamIndex,
      isRedundantSecondaryStreamInput s m.streamIndex = false) ∧
    (∀ m ∈ mappings, isRedundantSecondaryStreamInput s m.streamIndex = false →
      m ∈ mappings.filter fun m2 => !isRedundantSecondaryStreamInput s m2.streamIndex) := by
  refine ⟨?_, ?_, ?_⟩
  · simp [getStreamPortInputNonRedundantAudioMappings, h]
  · intro m hm
    have h2 := (List.mem_filter.mp hm).2
    simpa using h2
  · intro m hm hred
    exact List.mem_filter.mpr ⟨hm, by simp [hred]⟩

/-- Witness for C7 at the sample state: stream index 1 is
redundant-secondary, so its mapping is removed and the others are kept. -/
theorem claim_C7_witness :
    getStreamPortInputAudioMappings sampleEntityState 0 = .ok sampleMappings ∧
    getStreamPortInputNonRedundantAudioMappings sampleEntityState 0 =
      .ok (sampleMappings.filter fun m =>
        !isRedundantSecondaryStreamInput sampleEntityState m.streamIndex) ∧
    getStreamPortInputNonRedundantAudioMappings sampleEntityState 0 =
      .ok [⟨0, 1, 2, 3⟩, ⟨2, 5, 6, 7⟩] := by
  have h0 : getStreamPortInputAudioMappings sampleEntityState 0 = .ok sampleMappings :=
    rfl
  refine ⟨h0, (claim_C7_nonredundant_audio_mappings sampleEntityState 0
    sampleMappings h0).1, by rfl⟩

/-- C9: the non-const getNodeStaticModel and getNodeDynamicModel never fail:
for an index absent from the addressed per-kind map they default-construct
and insert a node there and return its static (resp. dynamic) model, whereas
the const accessors throw InvalidDescriptorIndex for the same input. -/
theorem claim_C9_mut_accessors_default_insert (s : ControlledEntityState)
    (ci idx : Nat) (field : DescriptorKind)
    (habs : List.lookup idx ((getConfigurationTreeMut s ci).1.maps field) = none) :
    (getNodeStaticModelMut s ci idx field).1 = (default : NodeModels).staticModel ∧
    (getNodeDynamicModelMut s ci idx field).1 = (default : NodeModels).dynamicModel ∧
    nodeAt (getNodeStaticModelMut s ci idx field).2 ci idx field = some default ∧
    nodeAt (getNodeDynamicModelMut s ci idx field).2 ci idx field = some default ∧
    (s.entity.aemSupported = true →
      (List.lookup ci s.entityTree.configurationTrees).isSome = true →
      getNodeStaticModel s ci idx field = .error .invalidDescriptorIndex ∧
      getNodeDynamicModel s ci idx field = .error .invalidDescriptorIndex) := by
  cases hci : List.lookup ci s.entityTree.configurationTrees with
  | some t =>
    have hr : getConfigurationTreeMut s ci = (t, s) := by
      simp [getConfigurationTreeMut, hci]
    rw [hr] at habs
    have hstat : getNodeStaticModelMut s ci idx field =
        ((default : NodeModels).staticModel,
          setConfigurationTreeAt s ci
            (t.setMap field (t.maps field ++ [(idx, default)]))) := by
      simp [getNodeStaticModelMut, hr, habs]
    have hdyn : getNodeDynamicModelMut s ci idx field =
        ((default : NodeModels).dynamicModel,
          setConfigurationTreeAt s ci
            (t.setMap field (t.maps field ++ [(idx, default)]))) := by
      simp [getNodeDynamicModelMut, hr, habs]
    have hnode : nodeAt
        (setConfigurationTreeAt s ci (t.setMap field (t.maps field ++ [(idx, default)])))
        ci idx field = some default := by
      rw [nodeAt]
      rw [setConfigurationTreeAt]
      have hup := lookup_updateConfigurationTrees ci
        (t.setMap field (t.maps field ++ [(idx, default)]))
        s.entityTree.configurationTrees t hci
      simp only [hup]
      simp [ConfigurationTree.setMap, lookup_append_single idx default _ habs]
    refine ⟨by rw [hstat], by rw [hdyn], by rw [hstat]; exact hnode,
      by rw [hdyn]; exact hnode, ?_⟩
    intro haem _
    have hct : getConfigurationTree s ci = .ok t := by
      simp [getConfigurationTree, haem, hci]
    constructor
    · simp [getNodeStaticModel, hct, habs]
    · simp [getNodeDynamicModel, hct, habs]
  | none =>
    have hr : getConfigurationTreeMut s ci =
        ((default : ConfigurationTree),
          { s with entityTree :=
              { s.entityTree with configurationTrees :=
                  s.entityTree.configurationTrees ++ [(ci, default)] } }) := by
      simp [getConfigurationTreeMut, hci]
    have habs2 : List.lookup idx ((default : ConfigurationTree).maps field) = none := by
      simp [List.lookup]
    have hciNew : List.lookup ci
        (s.entityTree.configurationTrees ++ [(ci, (default : ConfigurationTree))]) =
        some default :=
      lookup_append_single ci default _ hci
    have hstat : getNodeStaticModelMut s ci idx field =
        ((default : NodeModels).staticModel,
          setConfigurationTreeAt (getConfigurationTreeMut s ci).2 ci
            ((default : ConfigurationTree).setMap field
              ((default : ConfigurationTree).maps field ++ [(idx, default)]))) := by
      rw [getNodeStaticModelMut, hr]
      simp [habs2, hr]
    have hdyn : getNodeDynamicModelMut s ci idx field =
        ((default : NodeModels).dynamicModel,
          setConfigurationTreeAt (getConfigurationTreeMut s ci).2 ci
            ((default : ConfigurationTree).setMap field
              ((default : ConfigurationTree).maps field ++ [(idx, default)]))) := by
      rw [getNodeDynamicModelMut, hr]
      simp [habs2, hr]
    have hnode : nodeAt
        (setConfigurationTreeAt (getConfigurationTreeMut s ci).2 ci
          ((default : ConfigurationTree).setMap field
            ((default : ConfigurationTree).maps field ++ [(idx, default)])))
        ci idx field = some default := by
      rw [nodeAt, setConfigurationTreeAt, hr]
      have hup := lookup_updateConfigurationTrees ci
        ((default : ConfigurationTree).setMap field
          ((default : ConfigurationTree).maps field ++ [(idx, default)]))
        (s.entityTree.configurationTrees ++ [(ci, default)]) default hciNew
      simp only [hup]
      simp [ConfigurationTree.setMap, List.lookup]
    refine ⟨by rw [hstat], by rw [hdyn], by rw [hstat]; exact hnode,
      by rw [hdyn]; exact hnode, ?_⟩
    intro _ hsome
    simp at hsome

/-- Witness for C9 at the sample state: index 3 is absent from the stream
input map of configuration 0. -/
theorem claim_C9_witness :
    List.lookup 3 ((getConfigurationTreeMut sampleEntityState 0).1.maps .streamInputs) =
      none ∧
    ((getNodeStaticModelMut sampleEntityState 0 3 .streamInputs).1 =
        (default : NodeModels).staticModel ∧
      (getNodeDynamicModelMut sampleEntityState 0 3 .streamInputs).1 =
        (default : NodeModels).dynamicModel ∧
      nodeAt (getNodeStaticModelMut sampleEntityState 0 3 .streamInputs).2 0 3
        .streamInputs = some default ∧
      nodeAt (getNodeDynamicModelMut sampleEntityState 0 3 .streamInputs).2 0 3
        .streamInputs = some default ∧
      (sampleEntityState.entity.aemSupported = true →
        (List.lookup 0 sampleEntityState.entityTree.configurationTrees).isSome = true →
        getNodeStaticModel sampleEntityState 0 3 .streamInputs =
          .error .invalidDescriptorIndex ∧
        getNodeDynamicModel sampleEntityState 0 3 .streamInputs =
          .error .invalidDescriptorIndex)) := by
  have habs : List.lookup 3
      ((getConfigurationTreeMut sampleEntityState 0).1.maps .streamInputs) = none := by
    decide
  exact ⟨habs, claim_C9_mut_accessors_default_insert sampleEntityState 0 3
    .streamInputs habs⟩

/-- C10: hasTreeModel returns false whenever a fatal enumeration error was
recorded or the entity does not advertise AemSupported, even if the node is
present; otherwise it reports whether the (configuration, index) entry
exists. It is a pure Bool function of the state. -/
theorem claim_C10_hasTreeModel_guards (s : ControlledEntityState) (ci idx : Nat)
    (field : DescriptorKind) :
    ((gotFatalEnumerationError s = true ∨ s.entity.aemSupported = false) →
      hasTreeModel s ci idx field = false) ∧
    (gotFatalEnumerationError s = false → s.entity.aemSupported = true →
      hasTreeModel s ci idx field = (nodeAt s ci idx field).isSome) := by
  constructor
  · intro hcase
    rcases hcase with hf | ha
    · simp [hasTreeModel, hf]
    · simp [hasTreeModel, ha]
  · intro hf ha
    simp only [hasTreeModel, hf, ha, gotFatalEnumerationError] at *
    cases hci : List.lookup ci s.entityTree.configurationTrees <;>
      simp [nodeAt, hci, hf]

/-- Witness for C10: the sample state reports the existing stream input node,
and the same state with a fatal error reports false for the same input. -/
theorem claim_C10_witness :
    ((gotFatalEnumerationError sampleFatalState = true ∨
        sampleFatalState.entity.aemSupported = false) →
      hasTreeModel sampleFatalState 0 0 .streamInputs = false) ∧
    hasTreeModel sampleFatalState 0 0 .streamInputs = false ∧
    nodeAt sampleFatalState 0 0 .streamInputs = some sampleNode ∧
    (gotFatalEnumerationError sampleEntityState = false →
      sampleEntityState.entity.aemSupported = true →
      hasTreeModel sampleEntityState 0 0 .streamInputs =
        (nodeAt sampleEntityState 0 0 .streamInputs).isSome) ∧
    hasTreeModel sampleEntityState 0 0 .streamInputs = true := by
  refine ⟨(claim_C10_hasTreeModel_guards sampleFatalState 0 0 .streamInputs).1,
    ?_, ?_, (claim_C10_hasTreeModel_guards sampleEntityState 0 0 .streamInputs).2, ?_⟩
  · exact (claim_C10_hasTreeModel_guards sampleFatalState 0 0 .streamInputs).1
      (Or.inl rfl)
  · decide
  · decide

/-- Decoding inverts encoding for one audio mapping. -/
theorem decodeMapping_encodeMapping (m : AudioMapping) :
    decodeMapping (encodeMapping m) = m := rfl

/-- Decoding inverts encoding for a list of audio mappings. -/
theorem mappings_roundtrip (l : List AudioMapping) :
    (l.map encodeMapping).map decodeMapping = l := by
  induction l with
  | nil => rfl
  | cons m rest ih => simp [ih, decodeMapping_encodeMapping]

/-- Decoding inverts encoding for one descriptor node entry. -/
theorem decodeNode_encodeNode (p : Nat × NodeModels) :
    decodeNode (encodeNode p) = p := by
  cases p with
  | mk idx nm =>
    cases nm with
    | mk st dyn =>
      cases dyn with
      | mk pay ms =>
        simp only [encodeNode, decodeNode]
        rw [mappings_roundtrip]

/-- Decoding inverts encoding for a per-kind node map. -/
theorem nodeMap_roundtrip (m : List (Nat × NodeModels)) :
    (m.map encodeNode).map decodeNode = m := by
  induction m with
  | nil => rfl
  | cons p rest ih => simp [ih, decodeNode_encodeNode]

/-- Decoding inverts encoding for one configuration tree. -/
theorem decodeConfiguration_encodeConfiguration (p : Nat × ConfigurationTree) :
    decodeConfiguration (encodeConfiguration p) = p := by
  cases p with
  | mk ci t =>
    cases t with
    | mk counts maps =>
      have hc : (decodeConfiguration (encodeConfiguration (ci, ⟨counts, maps⟩))).2.descriptorCounts = counts := by
        funext k
        cases k <;> rfl
      have hm : (decodeConfiguration (encodeConfiguration (ci, ⟨counts, maps⟩))).2.maps = maps := by
        funext k
        cases k <;> exact nodeMap_roundtrip _
      have hi : (decodeConfiguration (encodeConfiguration (ci, ⟨counts, maps⟩))).1 = ci := rfl
      have := (decodeConfiguration (encodeConfiguration (ci, ⟨counts, maps⟩)))
      rw [Prod.ext_iff]
      refine ⟨hi, ?_⟩
      show (decodeConfiguration (encodeConfiguration (ci, ⟨counts, maps⟩))).2 = _
      cases hd : (decodeConfiguration (encodeConfiguration (ci, ⟨counts, maps⟩))).2 with
      | mk c2 m2 =>
        rw [hd] at hc hm
        simp at hc hm
        rw [hc, hm]

/-- Decoding inverts encoding for the configuration list. -/
theorem configurations_roundtrip (l : List (Nat × ConfigurationTree)) :
    (l.map encodeConfiguration).map decodeConfiguration = l := by
  induction l with
  | nil => rfl
  | cons p rest ih => simp [ih, decodeConfiguration_encodeConfiguration]

/-- Decoding inverts encoding for the entity tree. -/
theorem decodeTree_encodeTree (t : EntityTree) : decodeTree (encodeTree t) = t := by
  cases t with
  | mk emid cc l =>
    simp only [encodeTree, decodeTree]
    rw [configurations_roundtrip]

/-- Decoding inverts encoding for the AcquireState code. -/
theorem acquireStateOfNat_toNat (a : AcquireState) :
    acquireStateOfNat a.toNat = some a := by
  cases a <;> rfl

/-- Decoding inverts encoding for the LockState code. -/
theorem lockStateOfNat_toNat (a : LockState) : lockStateOfNat a.toNat = some a := by
  cases a <;> rfl

/-- Decoding inverts encoding for the InterfaceLinkStatus code. -/
theorem interfaceLinkStatusOfNat_toNat (a : InterfaceLinkStatus) :
    interfaceLinkStatusOfNat a.toNat = some a := by
  cases a <;> rfl

/-- Decoding inverts encoding for the link status list. -/
theorem decodeLinkStatusList_encode (l : List (Nat × InterfaceLinkStatus)) :
    decodeLinkStatusList (encodeLinkStatusList l) = some l := by
  induction l with
  | nil => rfl
  | cons p rest ih =>
    cases p with
    | mk i st =>
      rw [encodeLinkStatusList, List.map_cons, decodeLinkStatusList]
      rw [interfaceLinkStatusOfNat_toNat]
      have : decodeLinkStatusList (List.map (fun p => (p.1, p.2.toNat)) rest) = some rest := by
        rw [← encodeLinkStatusList]; exact ih
      rw [this]

/-- C8: deserializing the serialized document of an entity yields the virtual
reconstruction of that entity, on which every accessor over the serialized
fields (entity record, entity model id, compatibility flags, milan info,
acquire and lock state, link status, statistics, entity tree) returns the
same value as on the original. -/
theorem claim_C8_json_roundtrip (s : ControlledEntityState) :
    deserializeEntity (serializeEntity s) = some (deserializedOf s) ∧
    isVirtual (deserializedOf s) = true ∧
    getEntity (deserializedOf s) = getEntity s ∧
    (getEntity (deserializedOf s)).entityModelID = (getEntity s).entityModelID ∧
    getCompatibilityFlags (deserializedOf s) = getCompatibilityFlags s ∧
    getMilanInfo (deserializedOf s) = getMilanInfo s ∧
    getAcquireState (deserializedOf s) = getAcquireState s ∧
    getOwningControllerID (deserializedOf s) = getOwningControllerID s ∧
    getLockState (deserializedOf s) = getLockState s ∧
    getLockingControllerID (deserializedOf s) = getLockingControllerID s ∧
    (∀ i, getAvbInterfaceLinkStatus (deserializedOf s) i =
      getAvbInterfaceLinkStatus s i) ∧
    getAecpRetryCounter (deserializedOf s) = getAecpRetryCounter s ∧
    getAecpTimeoutCounter (deserializedOf s) = getAecpTimeoutCounter s ∧
    getAecpUnexpectedResponseCounter (deserializedOf s) =
      getAecpUnexpectedResponseCounter s ∧
    getAecpResponseAverageTime (deserializedOf s) = getAecpResponseAverageTime s ∧
    getAemAecpUnsolicitedCounter (deserializedOf s) = getAemAecpUnsolicitedCounter s ∧
    getEnumerationTime (deserializedOf s) = getEnumerationTime s ∧
    (deserializedOf s).entityTree = s.entityTree := by
  have hmain : deserializeEntity (serializeEntity s) = some (deserializedOf s) := by
    have hv : (serializeEntity s).dumpVersion = currentDumpVersion := rfl
    rw [deserializeEntity, if_pos hv]
    have ha : (serializeEntity s).acquireState = s.acquireState.toNat := rfl
    have hl : (serializeEntity s).lockState = s.lockState.toNat := rfl
    have hls : (serializeEntity s).avbInterfaceLinkStatus =
        encodeLinkStatusList s.avbInterfaceLinkStatus := rfl
    have ht : (serializeEntity s).entityTree = encodeTree s.entityTree := rfl
    rw [ha, hl, hls, ht, acquireStateOfNat_toNat, lockStateOfNat_toNat,
      decodeLinkStatusList_encode, decodeTree_encodeTree]
    rfl
  refine ⟨hmain, rfl, rfl, rfl, rfl, rfl, rfl, rfl, rfl, rfl, fun i => rfl,
    rfl, rfl, rfl, rfl, rfl, rfl, rfl⟩

end Avdecc
